import Mathlib

/-!
Shallow embedding of the vaccination scheduling engine of the
`vaccine-scheduler` repository, and proofs checking the natural-language
specification against it.

Sources embedded here:
- `core/scheduler.py` (`classify_dog_age`, `RuleBasedScheduler.calculate_schedule`,
  `RuleBasedScheduler.analyze_history`),
- `core/config.py` (age-threshold constants),
- `core/contraindications.py` (`evaluate_condition_warnings` and helpers),
- `apps/dashboard/management/commands/send_reminders.py` (the per-candidate
  dedup/dispatch step of `Command.handle`).

Modelling conventions:
- `datetime.date` values are integer day numbers (`Int`); Python date
  subtraction `.days` is integer subtraction and `timedelta(weeks = w)` is
  `7 * w` days, both exact.
- Python float expressions `days / 7.0` and `weeks / 52.0` are modelled as
  exact rational division.  For the comparisons the code performs
  (`x <= 16`, `x <= 52`, `x / 52 <= 7`, `x < 6`, integer rule limits), IEEE
  double rounding agrees with the exact rational comparison for every integer
  day count in the representable `datetime.date` range, since the compared
  bounds are exactly representable and the rational value is never within
  double rounding error of a boundary unless it is exactly on it.
- The rule catalog (`data/vaccine_rules.json`, external data, read-only at
  runtime) is modelled as structured values: rule conditions are one of
  `all_ages`, `<= N`, `> N` as parsed by the code's string checks.
- Python exceptions are modelled with `Except`: `ValueError` in
  `calculate_schedule` and the `IndexError` that `rules[0]` raises on an
  empty rule list in `analyze_history`.
-/

namespace VaccSched

/- Dates: a `datetime.date` is modelled by its integer day number (`Int`). -/

/-- `core/config.py`: `AGE_PUPPY_MAX_WEEKS = 16`. -/
def AGE_PUPPY_MAX_WEEKS : Int := 16

/-- `core/config.py`: `AGE_ADOLESCENT_MAX_WEEKS = 52`. -/
def AGE_ADOLESCENT_MAX_WEEKS : Int := 52

/-- `core/config.py`: `AGE_ADULT_MAX_YEARS = 7`. -/
def AGE_ADULT_MAX_YEARS : Int := 7

/-- `core/scheduler.py` lines 24-45, `classify_dog_age`.
`age_weeks = (reference_date - birth_date).days / 7.0` and
`age_years = age_weeks / 52.0` are exact rational divisions here (see header
note on float fidelity). -/
def classify_dog_age (birth_date reference_date : Int) : String :=
  let age_weeks : ℚ := ((reference_date - birth_date : Int) : ℚ) / 7
  let age_years : ℚ := age_weeks / 52
  if age_weeks ≤ (AGE_PUPPY_MAX_WEEKS : ℚ) then "puppy"
  else if age_weeks ≤ (AGE_ADOLESCENT_MAX_WEEKS : ℚ) then "adolescent"
  else if age_years ≤ (AGE_ADULT_MAX_YEARS : ℚ) then "adult"
  else "senior"

lemma rat_div7_le (d k : Int) : ((d : ℚ) / 7 ≤ (k : ℚ)) ↔ d ≤ 7 * k := by
  rw [div_le_iff₀ (by norm_num : (0:ℚ) < 7)]
  constructor
  · intro h
    exact_mod_cast (by linarith : (d : ℚ) ≤ (7 : ℚ) * (k : ℚ))
  · intro h
    have : (d : ℚ) ≤ (7 : ℚ) * (k : ℚ) := by exact_mod_cast h
    linarith

lemma classify_cond1 (d : Int) :
    ((d : ℚ) / 7 ≤ (AGE_PUPPY_MAX_WEEKS : ℚ)) ↔ d ≤ 112 := by
  unfold AGE_PUPPY_MAX_WEEKS
  rw [rat_div7_le]
  omega

lemma classify_cond2 (d : Int) :
    ((d : ℚ) / 7 ≤ (AGE_ADOLESCENT_MAX_WEEKS : ℚ)) ↔ d ≤ 364 := by
  unfold AGE_ADOLESCENT_MAX_WEEKS
  rw [rat_div7_le]
  omega

lemma classify_cond3 (d : Int) :
    ((d : ℚ) / 7 / 52 ≤ (AGE_ADULT_MAX_YEARS : ℚ)) ↔ d ≤ 2548 := by
  unfold AGE_ADULT_MAX_YEARS
  rw [div_le_iff₀ (by norm_num : (0:ℚ) < 52)]
  have h364 : ((7 : Int) : ℚ) * 52 = ((364 : Int) : ℚ) := by norm_num
  rw [h364, rat_div7_le]
  omega

lemma classify_dog_age_cases (birth_date reference_date : Int) :
    classify_dog_age birth_date reference_date =
      (if reference_date - birth_date ≤ 112 then "puppy"
       else if reference_date - birth_date ≤ 364 then "adolescent"
       else if reference_date - birth_date ≤ 2548 then "adult"
       else "senior") := by
  unfold classify_dog_age
  simp only [classify_cond1, classify_cond2, classify_cond3]

/-! ## Rule catalog data model (`data/vaccine_rules.json` as consumed by
`core/scheduler.py`) -/

/-- A rule condition string as the scheduler parses it (lines 121-133):
`'all_ages'`, `'<= N'` or `'> N'` with `N` an integer number of weeks. -/
inductive RuleCondition where
  | allAges : RuleCondition
  | leWeeks : Int → RuleCondition
  | gtWeeks : Int → RuleCondition
deriving DecidableEq

/-- One entry of a vaccine's `rules` list.  `min_interval` / `max_interval`
are optional JSON keys (the code reads them with `.get` and a default). -/
structure AgeRule where
  condition : RuleCondition
  doses : Nat
  interval_days : Int
  min_interval : Option Int := none
  max_interval : Option Int := none
  initial_booster_days : Int
deriving DecidableEq

/-- Optional `side_effects` object of a catalog entry. -/
structure SideEffects where
  common : Option (List String) := none
  seek_vet_if : Option (List String) := none
deriving DecidableEq

/-- A vaccine definition of the catalog.  `vtype` is the JSON `type` field
(`"core"`, `"core_conditional"` or `"noncore"`). -/
structure Vaccine where
  id : String
  name : String
  vtype : String
  min_start_age_weeks : Option Int := none
  description : Option String := none
  side_effects : SideEffects := {}
  rules : List AgeRule
deriving DecidableEq

/-- `ScheduleItem` dataclass (`core/scheduler.py` lines 9-21).  `date`,
`date_range_start` and `date_range_end` are `strftime("%Y-%m-%d")` strings in
the source; they are kept as day numbers here (for four-digit years the
string is an injective, order-preserving image of the date, so the final
sort-by-string of line 263 is the sort by day number). -/
structure ScheduleItem where
  vaccine : String
  vaccine_id : String
  dose : String
  dose_number : Option Nat
  date : Int
  notes : String
  date_range_start : Option Int := none
  date_range_end : Option Int := none
  description : Option String := none
  side_effects_common : Option (List String) := none
  side_effects_seek_vet : Option (List String) := none
deriving DecidableEq

/-- Python substring test `pat in s` (used for `"Initial Series" in s.dose`). -/
def strContains (s pat : String) : Bool :=
  (List.range (s.toList.length + 1)).any (fun i => pat.toList.isPrefixOf (s.toList.drop i))

/-- `past_history.get(v_id, [])` on the history dict (modelled as an
association list of the dict's items). -/
def historyLookup (hist : List (String × List Int)) (vid : String) : List Int :=
  match hist.find? (fun p => p.1 == vid) with
  | some p => p.2
  | none => []

/-- Python `sorted` on a list of dates. -/
def sortDates (l : List Int) : List Int :=
  l.insertionSort (fun a b => a ≤ b)

/-- The scheduler's active-rule scan (`core/scheduler.py` lines 118-133):
first condition matching the current age wins.  The code compares
`current_age_weeks = days / 7.0` against the integer `limit`; for integer
`days` and `limit` that float comparison is exactly the integer comparison
`days ≤ 7 * limit` (resp. `>`), used here so the scan stays
kernel-evaluable. -/
def condMatches (ageDays : Int) : RuleCondition → Bool
  | .allAges => true
  | .leWeeks n => ageDays ≤ 7 * n
  | .gtWeeks n => ageDays > 7 * n

/-- First rule whose condition matches, in catalog order.  `ageDays` is
`(reference_date - birth_date).days`. -/
def findActiveRule (ageDays : Int) : List AgeRule → Option AgeRule
  | [] => none
  | r :: rs => if condMatches ageDays r.condition then some r else findActiveRule ageDays rs

/-! ## Schedule generator (`RuleBasedScheduler.calculate_schedule`,
`core/scheduler.py` lines 67-264) -/

/-- Step 2 of the algorithm, lines 104-116: the start date for a vaccine with
no generation anchor yet. -/
def minStartDate (birth today : Int) (v : Vaccine) (doses_given_count : Nat) : Int :=
  match v.min_start_age_weeks with
  | none => today
  | some w =>
    let min_age_date := birth + 7 * w
    if min_age_date > today then min_age_date
    else if doses_given_count = 0 then min_age_date
    else today

/-- The explanatory note appended to a clamped final `core_dap` dose
(line 163; note the leading space, it is string-concatenated). -/
def maternalNote : String :=
  " Final dose scheduled after 16 weeks per AAHA/WSAVA guidelines to ensure maternal antibodies have waned."

/-- `dose_note` before any final-dose suffix (lines 165-168). -/
def seriesBaseNote (v : Vaccine) (interval_days : Int) (is_final : Bool) : String :=
  let vaccine_description := v.description.getD ""
  if is_final then
    if vaccine_description ≠ "" then vaccine_description else "Completes initial series."
  else
    if vaccine_description ≠ "" then vaccine_description
    else s!"Series continues ({interval_days} day interval)."

/-- Acceptable date window before any final-`core_dap` clamp
(lines 170-179).  `k` is `current_dose_num`, `d` is `start_tracking_date`. -/
def doseRange (interval mi ma : Int) (doses_given : Nat) (last_dose : Option Int)
    (min_start : Int) (k : Nat) (d : Int) : Int × Int :=
  if k = 1 ∧ last_dose = none then
    (min_start, min_start + ma)
  else
    let base : Int :=
      match last_dose with
      | some ld => if k = doses_given + 1 then ld else d - interval
      | none => d - interval
    (base + mi, base + ma)

/-- One iteration of the initial-series `while` loop (lines 150-202):
the `ScheduleItem` appended when `current_dose_num = k` and
`start_tracking_date = d`. -/
def mkDoseItem (birth : Int) (v : Vaccine) (total : Nat) (interval mi ma : Int)
    (doses_given : Nat) (last_dose : Option Int) (min_start : Int)
    (k : Nat) (d : Int) : ScheduleItem :=
  let is_final := k = total
  let floor16 := birth + 7 * 16
  let clamped := is_final ∧ v.id = "core_dap" ∧ d < floor16
  let dose_date := if clamped then floor16 else d
  let final_dose_note := if clamped then maternalNote else ""
  let dose_note := seriesBaseNote v interval is_final ++ (if is_final then final_dose_note else "")
  let r0 := doseRange interval mi ma doses_given last_dose min_start k d
  let range_start := if is_final ∧ v.id = "core_dap" ∧ r0.1 < floor16 then floor16 else r0.1
  let range_end := if is_final ∧ v.id = "core_dap" ∧ r0.2 < floor16 then floor16 + ma else r0.2
  { vaccine := v.name
    vaccine_id := v.id
    dose := s!"Initial Series: Dose {k}"
    dose_number := some k
    date := dose_date
    notes := dose_note
    date_range_start := some range_start
    date_range_end := some range_end
    description := v.description
    side_effects_common := v.side_effects.common
    side_effects_seek_vet := v.side_effects.seek_vet_if }

/-- Structural helper for the initial-series `while` loop: `remaining` is the
number of iterations still to run (`total + 1 - k`, i.e. the loop runs while
`current_dose_num = k ≤ total`). -/
def genDosesAux (birth : Int) (v : Vaccine) (total : Nat) (interval mi ma : Int)
    (doses_given : Nat) (last_dose : Option Int) (min_start : Int) :
    Nat → Nat → Int → List ScheduleItem
  | 0, _, _ => []
  | r + 1, k, d =>
    mkDoseItem birth v total interval mi ma doses_given last_dose min_start k d ::
      genDosesAux birth v total interval mi ma doses_given last_dose min_start r (k + 1)
        (d + interval)

/-- The initial-series `while` loop (lines 150-204), as a recursion over
`current_dose_num = k` with `start_tracking_date = d`. -/
def genDoses (birth : Int) (v : Vaccine) (total : Nat) (interval mi ma : Int)
    (doses_given : Nat) (last_dose : Option Int) (min_start : Int)
    (k : Nat) (d : Int) : List ScheduleItem :=
  genDosesAux birth v total interval mi ma doses_given last_dose min_start (total + 1 - k) k d

/-- `booster_note` (line 229). -/
def boosterNoteFor (v : Vaccine) : String :=
  let vaccine_description := v.description.getD ""
  if vaccine_description ≠ "" then s!"Booster maintains immunity. {vaccine_description}"
  else "Revaccination to maintain immunity."

/-- Lines 208-217: when the series was (or will be) finished.
`schedule_so_far` is the full accumulated schedule at that point (earlier
vaccines' items plus this vaccine's freshly generated series items), as
filtered on line 211. -/
def seriesCompleteDate (v : Vaccine) (rule : AgeRule) (doses_given : Nat)
    (last_dose : Option Int) (schedule_so_far : List ScheduleItem) : Option Int :=
  let this_vax := schedule_so_far.filter
    (fun s => s.vaccine == v.name && strContains s.dose "Initial Series")
  match this_vax.getLast? with
  | some lastItem => some lastItem.date
  | none =>
    if doses_given ≥ rule.doses ∧ last_dose.isSome then last_dose else none

/-- Step 6, booster logic (lines 206-261). -/
def boosterItems (v : Vaccine) (rule : AgeRule) (today : Int)
    (doses_given : Nat) (last_dose : Option Int)
    (schedule_so_far : List ScheduleItem) : List ScheduleItem :=
  match seriesCompleteDate v rule doses_given last_dose schedule_so_far with
  | none => []
  | some scd =>
    let initial_booster_due := scd + rule.initial_booster_days
    let booster_note := boosterNoteFor v
    if initial_booster_due > today then
      [{ vaccine := v.name, vaccine_id := v.id, dose := "1-Year Booster",
         dose_number := none, date := initial_booster_due, notes := booster_note,
         description := v.description,
         side_effects_common := v.side_effects.common,
         side_effects_seek_vet := v.side_effects.seek_vet_if }]
    else
      [{ vaccine := v.name, vaccine_id := v.id, dose := "Booster (Annual or 3-Year)",
         dose_number := none, date := max initial_booster_due today, notes := booster_note,
         description := v.description,
         side_effects_common := v.side_effects.common,
         side_effects_seek_vet := v.side_effects.seek_vet_if }]

/-- The body of the `for vaccine in self.rules` loop (lines 94-261): the items
this catalog entry appends to the accumulated schedule. -/
def processVaccine (birth today : Int) (selected_noncore : List String)
    (past_history : List (String × List Int)) (schedule_so_far : List ScheduleItem)
    (v : Vaccine) : List ScheduleItem :=
  if v.vtype == "noncore" && !(selected_noncore.contains v.id) then []
  else
    let history_dates := sortDates (historyLookup past_history v.id)
    let doses_given_count := history_dates.length
    let last_dose_date := history_dates.getLast?
    let min_start_date := minStartDate birth today v doses_given_count
    let current_age_days := today - birth
    match findActiveRule current_age_days v.rules with
    | none => []
    | some active_rule =>
      let total := active_rule.doses
      let interval := active_rule.interval_days
      let start_tracking_date :=
        match last_dose_date with
        | some ld => max (ld + interval) today
        | none => min_start_date
      let mi := active_rule.min_interval.getD interval
      let ma := active_rule.max_interval.getD interval
      let series := genDoses birth v total interval mi ma doses_given_count
        last_dose_date min_start_date (doses_given_count + 1) start_tracking_date
      series ++ boosterItems v active_rule today doses_given_count last_dose_date
        (schedule_so_far ++ series)

/-- The accumulated (not yet sorted) schedule after the whole catalog loop. -/
def calcUnsorted (catalog : List Vaccine) (birth today : Int)
    (selected_noncore : List String) (past_history : List (String × List Int)) :
    List ScheduleItem :=
  catalog.foldl
    (fun acc v => acc ++ processVaccine birth today selected_noncore past_history acc v) []

/-- `calculate_schedule` (lines 67-264): raises `ValueError` when
`birth_date > reference_date` (modelled as `Except.error`), otherwise returns
the accumulated items sorted by date (line 263; Python `list.sort` is stable,
as is insertion sort). -/
def calculate_schedule (catalog : List Vaccine) (birth_date : Int)
    (selected_noncore : List String) (past_history : List (String × List Int))
    (reference_date : Int) : Except String (List ScheduleItem) :=
  if birth_date > reference_date then
    .error s!"birth_date ({birth_date}) cannot be after reference_date ({reference_date})"
  else
    .ok ((calcUnsorted catalog birth_date reference_date selected_noncore past_history).insertionSort
      (fun a b => a.date ≤ b.date))

/-! ## Structural lemmas about the generator -/

lemma genDosesAux_eq_map (birth : Int) (v : Vaccine) (total : Nat) (interval mi ma : Int)
    (dg : Nat) (last : Option Int) (ms : Int) :
    ∀ (n : Nat) (k : Nat) (d : Int),
      genDosesAux birth v total interval mi ma dg last ms n k d =
        (List.range n).map
          (fun i => mkDoseItem birth v total interval mi ma dg last ms (k + i)
            (d + (i : Int) * interval)) := by
  intro n
  induction n with
  | zero =>
    intro k d
    rw [genDosesAux]
    simp
  | succ m ih =>
    intro k d
    rw [genDosesAux]
    rw [ih (k + 1) (d + interval)]
    rw [List.range_succ_eq_map]
    simp only [List.map_cons, List.map_map]
    congr 1
    · congr 1
      push_cast
      ring
    · apply List.map_congr_left
      intro i _
      simp only [Function.comp_apply]
      congr 1
      · omega
      · push_cast
        ring

lemma genDoses_eq_map (birth : Int) (v : Vaccine) (total : Nat) (interval mi ma : Int)
    (dg : Nat) (last : Option Int) (ms : Int) :
    ∀ (n : Nat) (k : Nat) (d : Int), total + 1 - k = n →
      genDoses birth v total interval mi ma dg last ms k d =
        (List.range n).map
          (fun i => mkDoseItem birth v total interval mi ma dg last ms (k + i)
            (d + (i : Int) * interval)) := by
  intro n k d hk
  rw [genDoses, hk, genDosesAux_eq_map]

lemma mem_genDoses_iff (birth : Int) (v : Vaccine) (total : Nat) (interval mi ma : Int)
    (dg : Nat) (last : Option Int) (ms : Int) (k : Nat) (d : Int) (s : ScheduleItem) :
    s ∈ genDoses birth v total interval mi ma dg last ms k d ↔
      ∃ i < total + 1 - k,
        s = mkDoseItem birth v total interval mi ma dg last ms (k + i) (d + (i : Int) * interval) := by
  rw [genDoses_eq_map birth v total interval mi ma dg last ms (total + 1 - k) k d rfl,
    List.mem_map]
  constructor
  · rintro ⟨i, hi, rfl⟩
    exact ⟨i, List.mem_range.mp hi, rfl⟩
  · rintro ⟨i, hi, rfl⟩
    exact ⟨i, List.mem_range.mpr hi, rfl⟩

lemma mkDoseItem_vaccine (birth : Int) (v : Vaccine) (total : Nat) (interval mi ma : Int)
    (dg : Nat) (last : Option Int) (ms : Int) (k : Nat) (d : Int) :
    (mkDoseItem birth v total interval mi ma dg last ms k d).vaccine = v.name := rfl

lemma mkDoseItem_vaccine_id (birth : Int) (v : Vaccine) (total : Nat) (interval mi ma : Int)
    (dg : Nat) (last : Option Int) (ms : Int) (k : Nat) (d : Int) :
    (mkDoseItem birth v total interval mi ma dg last ms k d).vaccine_id = v.id := rfl

lemma boosterItems_shape (v : Vaccine) (rule : AgeRule) (today : Int)
    (dg : Nat) (last : Option Int) (acc : List ScheduleItem) :
    boosterItems v rule today dg last acc = [] ∨
      ∃ dose date,
        boosterItems v rule today dg last acc =
          [{ vaccine := v.name, vaccine_id := v.id, dose := dose, dose_number := none,
             date := date, notes := boosterNoteFor v, description := v.description,
             side_effects_common := v.side_effects.common,
             side_effects_seek_vet := v.side_effects.seek_vet_if }] := by
  unfold boosterItems
  cases hsc : seriesCompleteDate v rule dg last acc with
  | none => exact Or.inl rfl
  | some scd =>
    dsimp only
    split
    · exact Or.inr ⟨_, _, rfl⟩
    · exact Or.inr ⟨_, _, rfl⟩

lemma mem_boosterItems_fields (v : Vaccine) (rule : AgeRule) (today : Int)
    (dg : Nat) (last : Option Int) (acc : List ScheduleItem) (s : ScheduleItem)
    (hs : s ∈ boosterItems v rule today dg last acc) :
    s.vaccine = v.name ∧ s.vaccine_id = v.id := by
  rcases boosterItems_shape v rule today dg last acc with h | ⟨dose, date, h⟩ <;> rw [h] at hs
  · simp at hs
  · rw [List.mem_singleton] at hs
    subst hs
    exact ⟨rfl, rfl⟩

lemma mem_processVaccine_fields (birth today : Int) (sel : List String)
    (hist : List (String × List Int)) (acc : List ScheduleItem) (v : Vaccine)
    (s : ScheduleItem) (hs : s ∈ processVaccine birth today sel hist acc v) :
    s.vaccine = v.name ∧ s.vaccine_id = v.id := by
  unfold processVaccine at hs
  split at hs
  · simp at hs
  · dsimp only at hs
    split at hs
    · simp at hs
    · rw [List.mem_append] at hs
      rcases hs with hs | hs
      · rw [mem_genDoses_iff] at hs
        obtain ⟨i, _, rfl⟩ := hs
        exact ⟨rfl, rfl⟩
      · exact mem_boosterItems_fields _ _ _ _ _ _ _ hs

lemma seriesCompleteDate_acc (v : Vaccine) (rule : AgeRule)
    (dg : Nat) (last : Option Int) (acc series : List ScheduleItem)
    (hacc : ∀ s ∈ acc, s.vaccine ≠ v.name) :
    seriesCompleteDate v rule dg last (acc ++ series) =
      seriesCompleteDate v rule dg last series := by
  unfold seriesCompleteDate
  dsimp only
  rw [List.filter_append]
  have hnil : acc.filter (fun s => s.vaccine == v.name && strContains s.dose "Initial Series") = [] := by
    rw [List.filter_eq_nil]
    intro s hs
    simp [hacc s hs]
  rw [hnil, List.nil_append]

lemma boosterItems_filter_acc (v : Vaccine) (rule : AgeRule) (today : Int)
    (dg : Nat) (last : Option Int) (acc series : List ScheduleItem)
    (hacc : ∀ s ∈ acc, s.vaccine ≠ v.name) :
    boosterItems v rule today dg last (acc ++ series) =
      boosterItems v rule today dg last series := by
  unfold boosterItems
  rw [seriesCompleteDate_acc v rule dg last acc series hacc]

lemma processVaccine_acc_eq (birth today : Int) (sel : List String)
    (hist : List (String × List Int)) (acc : List ScheduleItem) (v : Vaccine)
    (hacc : ∀ s ∈ acc, s.vaccine ≠ v.name) :
    processVaccine birth today sel hist acc v = processVaccine birth today sel hist [] v := by
  unfold processVaccine
  split
  · rfl
  · dsimp only
    split
    · rfl
    · rw [List.nil_append]
      rw [boosterItems_filter_acc _ _ _ _ _ _ _ hacc]

/-- The generator's per-entry contribution when the accumulated schedule has no
same-named items (the normal case for a well-formed catalog). -/
def selfItems (birth today : Int) (sel : List String)
    (hist : List (String × List Int)) (v : Vaccine) : List ScheduleItem :=
  processVaccine birth today sel hist [] v

lemma calcUnsorted_flatten_aux (birth today : Int) (sel : List String)
    (hist : List (String × List Int)) :
    ∀ (cat : List Vaccine) (acc : List ScheduleItem),
      (cat.map Vaccine.name).Nodup →
      (∀ s ∈ acc, ∀ w ∈ cat, s.vaccine ≠ w.name) →
      cat.foldl (fun a v => a ++ processVaccine birth today sel hist a v) acc =
        acc ++ (cat.map (selfItems birth today sel hist)).flatten := by
  intro cat
  induction cat with
  | nil => intro acc _ _; simp
  | cons v vs ih =>
    intro acc hnd hacc
    rw [List.foldl_cons]
    have h1 : processVaccine birth today sel hist acc v = selfItems birth today sel hist v := by
      apply processVaccine_acc_eq
      intro s hs
      exact hacc s hs v (List.mem_cons_self v vs)
    rw [h1]
    rw [List.map_cons, List.nodup_cons] at hnd
    have hacc' : ∀ s ∈ acc ++ selfItems birth today sel hist v, ∀ w ∈ vs, s.vaccine ≠ w.name := by
      intro s hs w hw
      rw [List.mem_append] at hs
      rcases hs with hs | hs
      · exact hacc s hs w (List.mem_cons_of_mem v hw)
      · obtain ⟨hv, _⟩ := mem_processVaccine_fields birth today sel hist [] v s hs
        rw [hv]
        intro hcontra
        exact hnd.1 (hcontra ▸ List.mem_map_of_mem Vaccine.name hw)
    rw [ih (acc ++ selfItems birth today sel hist v) hnd.2 hacc']
    simp [List.append_assoc]

lemma calcUnsorted_flatten (cat : List Vaccine) (birth today : Int) (sel : List String)
    (hist : List (String × List Int)) (hnd : (cat.map Vaccine.name).Nodup) :
    calcUnsorted cat birth today sel hist =
      (cat.map (selfItems birth today sel hist)).flatten := by
  unfold calcUnsorted
  rw [calcUnsorted_flatten_aux birth today sel hist cat [] hnd (by simp)]
  simp

lemma filter_flatten_id (birth today : Int) (sel : List String)
    (hist : List (String × List Int)) (v : Vaccine) :
    ∀ (cat : List Vaccine), (cat.map Vaccine.id).Nodup → v ∈ cat →
      ((cat.map (selfItems birth today sel hist)).flatten).filter
          (fun s => s.vaccine_id == v.id) =
        selfItems birth today sel hist v := by
  intro cat
  induction cat with
  | nil => intro _ hv; simp at hv
  | cons w ws ih =>
    intro hnd hv
    rw [List.map_cons, List.nodup_cons] at hnd
    rw [List.map_cons, List.flatten_cons, List.filter_append]
    rcases List.mem_cons.mp hv with rfl | hv'
    · have hself : (selfItems birth today sel hist v).filter (fun s => s.vaccine_id == v.id) =
          selfItems birth today sel hist v := by
        rw [List.filter_eq_self]
        intro s hs
        obtain ⟨_, hid⟩ := mem_processVaccine_fields birth today sel hist [] v s hs
        simp [hid]
      have hrest : ((ws.map (selfItems birth today sel hist)).flatten).filter
          (fun s => s.vaccine_id == v.id) = [] := by
        rw [List.filter_eq_nil]
        intro s hs
        rw [List.mem_flatten] at hs
        obtain ⟨l, hl, hsl⟩ := hs
        rw [List.mem_map] at hl
        obtain ⟨u, hu, rfl⟩ := hl
        obtain ⟨_, hid⟩ := mem_processVaccine_fields birth today sel hist [] u s hsl
        have : u.id ≠ v.id := by
          intro hcontra
          exact hnd.1 (hcontra ▸ List.mem_map_of_mem Vaccine.id hu)
        simp [hid, this]
      rw [hself, hrest, List.append_nil]
    · have hwid : w.id ≠ v.id := by
        intro hcontra
        have : v.id ∈ ws.map Vaccine.id := List.mem_map_of_mem Vaccine.id hv'
        exact hnd.1 (hcontra ▸ this)
      have hw : (selfItems birth today sel hist w).filter (fun s => s.vaccine_id == v.id) = [] := by
        rw [List.filter_eq_nil]
        intro s hs
        obtain ⟨_, hid⟩ := mem_processVaccine_fields birth today sel hist [] w s hs
        simp [hid, hwid]
      rw [hw, List.nil_append]
      exact ih hnd.2 hv'

lemma skip_cond_false (sel : List String) (v : Vaccine)
    (hsel : v.vtype = "noncore" → v.id ∈ sel) :
    (v.vtype == "noncore" && !(sel.contains v.id)) = false := by
  by_cases hv : v.vtype = "noncore"
  · have hm : sel.contains v.id = true := List.elem_eq_true_of_mem (hsel hv)
    rw [hm]
    simp
  · have h2 : (v.vtype == "noncore") = false := by
      simp [hv]
    rw [h2]
    simp

/-- The per-entry contribution of a vaccine whose sorted history already
covers the active rule's dose count: no series items, exactly the one booster
item of lines 219-261. -/
lemma selfItems_series_complete (birth today : Int) (sel : List String)
    (hist : List (String × List Int)) (v : Vaccine) (rule : AgeRule)
    (hsel : v.vtype = "noncore" → v.id ∈ sel)
    (hrule : findActiveRule (today - birth) v.rules = some rule)
    (hdoses : 1 ≤ rule.doses)
    (hgiven : rule.doses ≤ (historyLookup hist v.id).length) :
    selfItems birth today sel hist v =
      [{ vaccine := v.name, vaccine_id := v.id,
         dose := if (sortDates (historyLookup hist v.id)).getLast?.getD 0
                      + rule.initial_booster_days > today
                 then "1-Year Booster" else "Booster (Annual or 3-Year)",
         dose_number := none,
         date := if (sortDates (historyLookup hist v.id)).getLast?.getD 0
                      + rule.initial_booster_days > today
                 then (sortDates (historyLookup hist v.id)).getLast?.getD 0
                      + rule.initial_booster_days
                 else max ((sortDates (historyLookup hist v.id)).getLast?.getD 0
                      + rule.initial_booster_days) today,
         notes := boosterNoteFor v,
         description := v.description,
         side_effects_common := v.side_effects.common,
         side_effects_seek_vet := v.side_effects.seek_vet_if }] := by
  have hlen : (sortDates (historyLookup hist v.id)).length = (historyLookup hist v.id).length :=
    (List.perm_insertionSort (fun a b : Int => a ≤ b) (historyLookup hist v.id)).length_eq
  have hne : sortDates (historyLookup hist v.id) ≠ [] := by
    intro hcon
    rw [hcon] at hlen
    simp at hlen
    omega
  obtain ⟨lastd, hlast⟩ :=
    Option.isSome_iff_exists.mp ((List.getLast?_isSome).mpr hne)
  have hskip := skip_cond_false sel v hsel
  unfold selfItems processVaccine
  rw [hskip]
  simp only [Bool.false_eq_true, if_false]
  rw [hrule]
  dsimp only
  have hser : genDoses birth v rule.doses rule.interval_days
      (rule.min_interval.getD rule.interval_days) (rule.max_interval.getD rule.interval_days)
      (sortDates (historyLookup hist v.id)).length
      (sortDates (historyLookup hist v.id)).getLast?
      (minStartDate birth today v (sortDates (historyLookup hist v.id)).length)
      ((sortDates (historyLookup hist v.id)).length + 1)
      (match (sortDates (historyLookup hist v.id)).getLast? with
        | some ld => max (ld + rule.interval_days) today
        | none => minStartDate birth today v (sortDates (historyLookup hist v.id)).length) = [] := by
    rw [genDoses]
    have h0 : rule.doses + 1 - ((sortDates (historyLookup hist v.id)).length + 1) = 0 := by
      omega
    rw [h0, genDosesAux]
  rw [hser]
  simp only [List.nil_append]
  have hscd : seriesCompleteDate v rule (sortDates (historyLookup hist v.id)).length
      (sortDates (historyLookup hist v.id)).getLast? ([] : List ScheduleItem) =
      some lastd := by
    unfold seriesCompleteDate
    dsimp only
    rw [List.filter_nil, List.getLast?_nil]
    rw [if_pos ⟨by omega, by rw [hlast]; rfl⟩]
    exact hlast
  unfold boosterItems
  rw [hscd]
  dsimp only
  rw [hlast]
  simp only [Option.getD_some]
  split_ifs with h
  · rfl
  · rfl

/-! ## Claim C2 -/

/-- Catalog entry for the C2 counterexample: a core vaccine whose single
(`all_ages`) rule prescribes zero doses. -/
def c2CexVaccine : Vaccine :=
  { id := "core_zero", name := "ZeroDose", vtype := "core",
    rules := [{ condition := .allAges, doses := 0, interval_days := 21,
                initial_booster_days := 365 }] }

/-- C2 counterexample: for this catalog the active rule has `doses = 0`, so an
empty history satisfies `doses_given (0) ≥ rule.doses (0)`; the claim then
demands exactly one booster item, but the code emits none (line 216 also
requires a last historical dose). -/
theorem C2_counterexample :
    findActiveRule 0 c2CexVaccine.rules =
      some { condition := .allAges, doses := 0, interval_days := 21,
             initial_booster_days := 365 } ∧
    (0 : Nat) ≥ (0 : Nat) ∧
    calculate_schedule [c2CexVaccine] 0 [] [] 0 = .ok [] :=
  ⟨rfl, le_refl 0, rfl⟩

/-- C2 (amended): provided the catalog's vaccine names and ids are pairwise
distinct, the vaccine is not an unselected non-core entry, and its active rule
prescribes at least one dose, then for every vaccine whose history already
satisfies the active rule's dose count (`doses_given ≥ rule.doses`) the
generator emits no `Initial Series` item for that vaccine and emits exactly
one booster item whose date is never earlier than `reference_date`: dated
`series_complete_date + initial_booster_days` when that date is strictly in
the future, otherwise `max(booster_due, reference_date)`. -/
theorem C2_history_resumption (cat : List Vaccine) (birth ref : Int)
    (sel : List String) (hist : List (String × List Int)) (v : Vaccine) (rule : AgeRule)
    (hnames : (cat.map Vaccine.name).Nodup)
    (hids : (cat.map Vaccine.id).Nodup)
    (hmem : v ∈ cat)
    (hbr : birth ≤ ref)
    (hsel : v.vtype = "noncore" → v.id ∈ sel)
    (hrule : findActiveRule (ref - birth) v.rules = some rule)
    (hdoses : 1 ≤ rule.doses)
    (hgiven : rule.doses ≤ (historyLookup hist v.id).length) :
    ∃ l, calculate_schedule cat birth sel hist ref = .ok l ∧
      l.filter (fun s => s.vaccine_id == v.id) =
        [{ vaccine := v.name, vaccine_id := v.id,
           dose := if (sortDates (historyLookup hist v.id)).getLast?.getD 0
                        + rule.initial_booster_days > ref
                   then "1-Year Booster" else "Booster (Annual or 3-Year)",
           dose_number := none,
           date := if (sortDates (historyLookup hist v.id)).getLast?.getD 0
                        + rule.initial_booster_days > ref
                   then (sortDates (historyLookup hist v.id)).getLast?.getD 0
                        + rule.initial_booster_days
                   else max ((sortDates (historyLookup hist v.id)).getLast?.getD 0
                        + rule.initial_booster_days) ref,
           notes := boosterNoteFor v,
           description := v.description,
           side_effects_common := v.side_effects.common,
           side_effects_seek_vet := v.side_effects.seek_vet_if }] ∧
      (∀ s ∈ l, s.vaccine_id = v.id → strContains s.dose "Initial Series" = false) ∧
      (∀ s ∈ l, s.vaccine_id = v.id → ref ≤ s.date) := by
  have hnotgt : ¬ birth > ref := not_lt.mpr hbr
  have key : ((calcUnsorted cat birth ref sel hist).insertionSort
        (fun a b => a.date ≤ b.date)).filter (fun s => s.vaccine_id == v.id) =
      [{ vaccine := v.name, vaccine_id := v.id,
         dose := if (sortDates (historyLookup hist v.id)).getLast?.getD 0
                      + rule.initial_booster_days > ref
                 then "1-Year Booster" else "Booster (Annual or 3-Year)",
         dose_number := none,
         date := if (sortDates (historyLookup hist v.id)).getLast?.getD 0
                      + rule.initial_booster_days > ref
                 then (sortDates (historyLookup hist v.id)).getLast?.getD 0
                      + rule.initial_booster_days
                 else max ((sortDates (historyLookup hist v.id)).getLast?.getD 0
                      + rule.initial_booster_days) ref,
         notes := boosterNoteFor v,
         description := v.description,
         side_effects_common := v.side_effects.common,
         side_effects_seek_vet := v.side_effects.seek_vet_if }] := by
    have h1 := (List.perm_insertionSort (fun a b : ScheduleItem => a.date ≤ b.date)
      (calcUnsorted cat birth ref sel hist)).filter (fun s => s.vaccine_id == v.id)
    have h2 : (calcUnsorted cat birth ref sel hist).filter (fun s => s.vaccine_id == v.id) =
        selfItems birth ref sel hist v := by
      rw [calcUnsorted_flatten cat birth ref sel hist hnames]
      exact filter_flatten_id birth ref sel hist v cat hids hmem
    rw [h2, selfItems_series_complete birth ref sel hist v rule hsel hrule hdoses hgiven] at h1
    exact List.perm_singleton.mp h1
  refine ⟨(calcUnsorted cat birth ref sel hist).insertionSort (fun a b => a.date ≤ b.date),
    by unfold calculate_schedule; rw [if_neg hnotgt], key, ?_, ?_⟩
  · intro s hs hid
    have hsf : s ∈ ((calcUnsorted cat birth ref sel hist).insertionSort
        (fun a b => a.date ≤ b.date)).filter (fun s => s.vaccine_id == v.id) :=
      List.mem_filter.mpr ⟨hs, by simp [hid]⟩
    rw [key, List.mem_singleton] at hsf
    subst hsf
    by_cases hdue : (sortDates (historyLookup hist v.id)).getLast?.getD 0
        + rule.initial_booster_days > ref
    · simp only [if_pos hdue]
      decide
    · simp only [if_neg hdue]
      decide
  · intro s hs hid
    have hsf : s ∈ ((calcUnsorted cat birth ref sel hist).insertionSort
        (fun a b => a.date ≤ b.date)).filter (fun s => s.vaccine_id == v.id) :=
      List.mem_filter.mpr ⟨hs, by simp [hid]⟩
    rw [key, List.mem_singleton] at hsf
    subst hsf
    by_cases hdue : (sortDates (historyLookup hist v.id)).getLast?.getD 0
        + rule.initial_booster_days > ref
    · simp only [if_pos hdue]
      omega
    · simp only [if_neg hdue]
      exact le_max_right _ _

/-- Catalog entry for the C2 witness. -/
def c2WitVaccine : Vaccine :=
  { id := "core_dap", name := "DAP", vtype := "core",
    rules := [{ condition := .allAges, doses := 1, interval_days := 21,
                initial_booster_days := 365 }] }

/-- Witness for C2 at a concrete input: one recorded dose at day 10 against a
one-dose rule, reference day 20; the schedule holds exactly the 1-year booster
at day 375. -/
theorem C2_history_resumption_witness :
    ∃ l, calculate_schedule [c2WitVaccine] 0 [] [("core_dap", [10])] 20 = .ok l ∧
      l.filter (fun s => s.vaccine_id == "core_dap") =
        [{ vaccine := "DAP", vaccine_id := "core_dap", dose := "1-Year Booster",
           dose_number := none, date := 375,
           notes := "Revaccination to maintain immunity." }] ∧
      (∀ s ∈ l, s.vaccine_id = "core_dap" → strContains s.dose "Initial Series" = false) ∧
      (∀ s ∈ l, s.vaccine_id = "core_dap" → (20 : Int) ≤ s.date) :=
  C2_history_resumption [c2WitVaccine] 0 20 [] [("core_dap", [10])] c2WitVaccine
    { condition := .allAges, doses := 1, interval_days := 21, initial_booster_days := 365 }
    (by decide) (by decide) (by decide) (by decide) (fun h => absurd h (by decide))
    rfl (by decide) (by decide)

/-! ## Claim C3 -/

lemma entry_eq_of_id_eq (cat : List Vaccine) (hids : (cat.map Vaccine.id).Nodup)
    (v w : Vaccine) (hv : v ∈ cat) (hw : w ∈ cat) (h : w.id = v.id) : w = v :=
  List.inj_on_of_nodup_map hids hw hv h

lemma selfItems_skip (birth today : Int) (sel : List String)
    (hist : List (String × List Int)) (v : Vaccine)
    (hnc : v.vtype = "noncore") (hnotsel : v.id ∉ sel) :
    selfItems birth today sel hist v = [] := by
  unfold selfItems processVaccine
  have hc : sel.contains v.id = false := by
    cases hcc : sel.contains v.id
    · rfl
    · exact absurd (List.mem_of_elem_eq_true hcc) hnotsel
  have hcond : (v.vtype == "noncore" && !(sel.contains v.id)) = true := by
    rw [hc, hnc]
    simp
  rw [hcond]
  simp

lemma selfItems_ne_nil (birth today : Int) (sel : List String)
    (hist : List (String × List Int)) (v : Vaccine) (rule : AgeRule)
    (hsel : v.vtype = "noncore" → v.id ∈ sel)
    (hrule : findActiveRule (today - birth) v.rules = some rule)
    (hdoses : 1 ≤ rule.doses) :
    selfItems birth today sel hist v ≠ [] := by
  by_cases hg : rule.doses ≤ (historyLookup hist v.id).length
  · rw [selfItems_series_complete birth today sel hist v rule hsel hrule hdoses hg]
    simp
  · have hlen : (sortDates (historyLookup hist v.id)).length = (historyLookup hist v.id).length :=
      (List.perm_insertionSort (fun a b : Int => a ≤ b) (historyLookup hist v.id)).length_eq
    unfold selfItems processVaccine
    rw [skip_cond_false sel v hsel]
    simp only [Bool.false_eq_true, if_false]
    rw [hrule]
    dsimp only
    intro hcon
    rcases List.append_eq_nil.mp hcon with ⟨hser, _⟩
    rw [genDoses] at hser
    have hsucc : rule.doses + 1 - ((sortDates (historyLookup hist v.id)).length + 1) =
        (rule.doses - (sortDates (historyLookup hist v.id)).length - 1) + 1 := by omega
    rw [hsucc, genDosesAux] at hser
    cases hser

/-- Catalog entry for the C3 counterexample: a non-core vaccine whose only
rule is gated to the first 10 weeks of age. -/
def c3CexVaccine : Vaccine :=
  { id := "noncore_x", name := "X", vtype := "noncore",
    rules := [{ condition := .leWeeks 10, doses := 3, interval_days := 21,
                initial_booster_days := 365 }] }

/-- C3 counterexample: the non-core vaccine is selected, yet it contributes no
`ScheduleItem` at all, because no age rule matches a 50-week-old subject
(`<= 10` fails at 350 days) — the claim's "every noncore entry listed
contributes at least one ScheduleItem" fails. -/
theorem C3_counterexample :
    c3CexVaccine.vtype = "noncore" ∧ "noncore_x" ∈ ["noncore_x"] ∧
    calculate_schedule [c3CexVaccine] 0 ["noncore_x"] [] 350 = .ok [] :=
  ⟨rfl, by decide, rfl⟩

/-- C3 (amended): provided the catalog's vaccine names and ids are pairwise
distinct and `birth_date ≤ reference_date`, a `noncore` vaccine not listed in
`selected_noncore_ids` contributes no `ScheduleItem`, and a listed one
contributes at least one `ScheduleItem` provided an age rule matches the
subject's current age and the active rule prescribes at least one dose. -/
theorem C3_noncore_gating (cat : List Vaccine) (birth ref : Int) (sel : List String)
    (hist : List (String × List Int)) (v : Vaccine)
    (hnames : (cat.map Vaccine.name).Nodup)
    (hids : (cat.map Vaccine.id).Nodup)
    (hmem : v ∈ cat)
    (hbr : birth ≤ ref)
    (hnc : v.vtype = "noncore") :
    ∀ l, calculate_schedule cat birth sel hist ref = .ok l →
      (v.id ∉ sel → ∀ s ∈ l, s.vaccine_id ≠ v.id) ∧
      (v.id ∈ sel → ∀ rule, findActiveRule (ref - birth) v.rules = some rule →
        1 ≤ rule.doses → ∃ s ∈ l, s.vaccine_id = v.id) := by
  intro l hl
  have hnotgt : ¬ birth > ref := not_lt.mpr hbr
  unfold calculate_schedule at hl
  rw [if_neg hnotgt] at hl
  injection hl with hl
  subst hl
  constructor
  · intro hnotsel s hs hid
    have hs' : s ∈ calcUnsorted cat birth ref sel hist :=
      ((List.perm_insertionSort (fun a b : ScheduleItem => a.date ≤ b.date)
        (calcUnsorted cat birth ref sel hist)).mem_iff).mp hs
    rw [calcUnsorted_flatten cat birth ref sel hist hnames, List.mem_flatten] at hs'
    obtain ⟨li, hli, hsli⟩ := hs'
    rw [List.mem_map] at hli
    obtain ⟨w, hw, rfl⟩ := hli
    obtain ⟨_, hid'⟩ := mem_processVaccine_fields birth ref sel hist [] w s hsli
    have hweq : w = v := entry_eq_of_id_eq cat hids v w hmem hw (by rw [← hid', hid])
    rw [hweq, selfItems_skip birth ref sel hist v hnc hnotsel] at hsli
    cases hsli
  · intro hsel rule hrule hdoses
    have hne := selfItems_ne_nil birth ref sel hist v rule (fun _ => hsel) hrule hdoses
    obtain ⟨s, hs⟩ := List.exists_mem_of_ne_nil _ hne
    refine ⟨s, ?_, (mem_processVaccine_fields birth ref sel hist [] v s hs).2⟩
    apply ((List.perm_insertionSort (fun a b : ScheduleItem => a.date ≤ b.date)
      (calcUnsorted cat birth ref sel hist)).mem_iff).mpr
    rw [calcUnsorted_flatten cat birth ref sel hist hnames]
    exact List.mem_flatten.mpr ⟨_, List.mem_map_of_mem _ hmem, hs⟩

/-- Catalog entry for the C3 witness. -/
def c3WitVaccine : Vaccine :=
  { id := "noncore_x", name := "X", vtype := "noncore",
    rules := [{ condition := .allAges, doses := 1, interval_days := 21,
                initial_booster_days := 365 }] }

/-- Witness for C3 at a concrete input: the selected non-core vaccine with a
matching one-dose rule contributes an item to the concrete output. -/
theorem C3_noncore_gating_witness :
    ∃ s ∈ [({ vaccine := "X", vaccine_id := "noncore_x", dose := "Initial Series: Dose 1",
              dose_number := some 1, date := 0, notes := "Completes initial series.",
              date_range_start := some 0, date_range_end := some 21 } : ScheduleItem),
           { vaccine := "X", vaccine_id := "noncore_x", dose := "1-Year Booster",
              dose_number := none, date := 365,
              notes := "Revaccination to maintain immunity." }],
      s.vaccine_id = "noncore_x" :=
  ((C3_noncore_gating [c3WitVaccine] 0 0 ["noncore_x"] [] c3WitVaccine
      (by decide) (by decide) (by decide) (by decide) rfl)
    _ rfl).2 (by decide)
    { condition := .allAges, doses := 1, interval_days := 21, initial_booster_days := 365 }
    rfl (by decide)

/-! ## Claim C5 -/

/-- C5 counterexample catalog entry: identical to `c5CexDap` except for the
id, which is not `"core_dap"`. -/
def c5CexVaccine : Vaccine :=
  { id := "core_x", name := "XVax", vtype := "core", min_start_age_weeks := some 6,
    rules := [{ condition := .allAges, doses := 3, interval_days := 21,
                initial_booster_days := 365 }] }

/-- C5 counterexample catalog entry with the hardcoded id `"core_dap"`. -/
def c5CexDap : Vaccine :=
  { id := "core_dap", name := "XVax", vtype := "core", min_start_age_weeks := some 6,
    rules := [{ condition := .allAges, doses := 3, interval_days := 21,
                initial_booster_days := 365 }] }

/-- C5 counterexample: two catalog entries identical in every field except the
id.  The final series dose computes to day 84, before `birth + 16` weeks
(day 112).  The `"core_x"` entry is left unclamped at day 84 with no note;
the `"core_dap"` entry is clamped to day 112 with the explanatory note.  The
clamp is therefore keyed to the hardcoded id, not to any per-vaccine catalog
flag, and a final dose of a vaccine "without the flag" (no flag exists) is
clamped. -/
theorem C5_counterexample :
    (84 : Int) < 0 + 7 * 16 ∧
    calculate_schedule [c5CexVaccine] 0 [] [] 0 = .ok
      [{ vaccine := "XVax", vaccine_id := "core_x", dose := "Initial Series: Dose 1",
         dose_number := some 1, date := 42, notes := "Series continues (21 day interval).",
         date_range_start := some 42, date_range_end := some 63 },
       { vaccine := "XVax", vaccine_id := "core_x", dose := "Initial Series: Dose 2",
         dose_number := some 2, date := 63, notes := "Series continues (21 day interval).",
         date_range_start := some 63, date_range_end := some 63 },
       { vaccine := "XVax", vaccine_id := "core_x", dose := "Initial Series: Dose 3",
         dose_number := some 3, date := 84, notes := "Completes initial series.",
         date_range_start := some 84, date_range_end := some 84 },
       { vaccine := "XVax", vaccine_id := "core_x", dose := "1-Year Booster",
         dose_number := none, date := 449,
         notes := "Revaccination to maintain immunity." }] ∧
    calculate_schedule [c5CexDap] 0 [] [] 0 = .ok
      [{ vaccine := "XVax", vaccine_id := "core_dap", dose := "Initial Series: Dose 1",
         dose_number := some 1, date := 42, notes := "Series continues (21 day interval).",
         date_range_start := some 42, date_range_end := some 63 },
       { vaccine := "XVax", vaccine_id := "core_dap", dose := "Initial Series: Dose 2",
         dose_number := some 2, date := 63, notes := "Series continues (21 day interval).",
         date_range_start := some 63, date_range_end := some 63 },
       { vaccine := "XVax", vaccine_id := "core_dap", dose := "Initial Series: Dose 3",
         dose_number := some 3, date := 112,
         notes := "Completes initial series. Final dose scheduled after 16 weeks per AAHA/WSAVA guidelines to ensure maternal antibodies have waned.",
         date_range_start := some 112, date_range_end := some 133 },
       { vaccine := "XVax", vaccine_id := "core_dap", dose := "1-Year Booster",
         dose_number := none, date := 477,
         notes := "Revaccination to maintain immunity." }] :=
  ⟨by decide, rfl, rfl⟩

/-- C5 (amended): the final-dose age floor is keyed to the hardcoded vaccine
id `"core_dap"`, not to a per-vaccine catalog flag.  The initial-series loop
(`genDoses`) emits one item per remaining dose; for every vaccine whose id is
not `"core_dap"` each emitted item keeps the computed date, base note and
unclamped window; for the `"core_dap"` entry the final dose (`k = total`) is
clamped forward to `birth + 16` weeks when it falls earlier, the explanatory
note is appended exactly then, and the acceptable window is clamped to that
floor as well (the window end assuming a nonnegative `max_interval`). -/
theorem C5_final_dose_floor (birth : Int) (v : Vaccine) (total : Nat)
    (interval mi ma : Int) (dg : Nat) (last : Option Int) (ms : Int) :
    (∀ (k : Nat) (d : Int), genDoses birth v total interval mi ma dg last ms k d =
        (List.range (total + 1 - k)).map
          (fun i => mkDoseItem birth v total interval mi ma dg last ms (k + i)
            (d + (i : Int) * interval))) ∧
    (v.id ≠ "core_dap" → ∀ (k : Nat) (d : Int),
        (mkDoseItem birth v total interval mi ma dg last ms k d).date = d ∧
        (mkDoseItem birth v total interval mi ma dg last ms k d).notes =
          seriesBaseNote v interval (decide (k = total)) ∧
        (mkDoseItem birth v total interval mi ma dg last ms k d).date_range_start =
          some (doseRange interval mi ma dg last ms k d).1 ∧
        (mkDoseItem birth v total interval mi ma dg last ms k d).date_range_end =
          some (doseRange interval mi ma dg last ms k d).2) ∧
    (v.id = "core_dap" → ∀ (d : Int),
        (d < birth + 7 * 16 →
          (mkDoseItem birth v total interval mi ma dg last ms total d).date = birth + 7 * 16 ∧
          (mkDoseItem birth v total interval mi ma dg last ms total d).notes =
            seriesBaseNote v interval true ++ maternalNote) ∧
        (birth + 7 * 16 ≤ d →
          (mkDoseItem birth v total interval mi ma dg last ms total d).date = d ∧
          (mkDoseItem birth v total interval mi ma dg last ms total d).notes =
            seriesBaseNote v interval true) ∧
        (∀ rs, (mkDoseItem birth v total interval mi ma dg last ms total d).date_range_start
            = some rs → birth + 7 * 16 ≤ rs) ∧
        (0 ≤ ma → ∀ re, (mkDoseItem birth v total interval mi ma dg last ms total d).date_range_end
            = some re → birth + 7 * 16 ≤ re)) := by
  refine ⟨fun k d => genDoses_eq_map birth v total interval mi ma dg last ms (total + 1 - k) k d rfl,
    ?_, ?_⟩
  · intro hid k d
    have hcl : ¬ (k = total ∧ v.id = "core_dap" ∧ d < birth + 7 * 16) := fun h => hid h.2.1
    have hcl1 : ¬ (k = total ∧ v.id = "core_dap" ∧
        (doseRange interval mi ma dg last ms k d).1 < birth + 7 * 16) := fun h => hid h.2.1
    have hcl2 : ¬ (k = total ∧ v.id = "core_dap" ∧
        (doseRange interval mi ma dg last ms k d).2 < birth + 7 * 16) := fun h => hid h.2.1
    unfold mkDoseItem
    dsimp only
    refine ⟨?_, ?_, ?_, ?_⟩
    · rw [if_neg hcl]
    · by_cases hk : k = total
      · rw [if_pos hk, if_neg hcl, String.append_empty]
      · rw [if_neg hk, String.append_empty]
    · rw [if_neg hcl1]
    · rw [if_neg hcl2]
  · intro hid d
    have hdec : (decide (total = total)) = true := by simp
    refine ⟨fun hlt => ⟨?_, ?_⟩, fun hge => ⟨?_, ?_⟩, ?_, ?_⟩
    · unfold mkDoseItem
      dsimp only
      rw [if_pos ⟨rfl, hid, hlt⟩]
    · unfold mkDoseItem
      dsimp only
      rw [if_pos (rfl : total = total), if_pos ⟨rfl, hid, hlt⟩, hdec]
    · unfold mkDoseItem
      dsimp only
      rw [if_neg (fun h => absurd h.2.2 (not_lt.mpr hge))]
    · unfold mkDoseItem
      dsimp only
      rw [if_pos (rfl : total = total), if_neg (fun h => absurd h.2.2 (not_lt.mpr hge)),
        String.append_empty, hdec]
    · intro rs hrs
      unfold mkDoseItem at hrs
      dsimp only at hrs
      by_cases hc : total = total ∧ v.id = "core_dap" ∧
          (doseRange interval mi ma dg last ms total d).1 < birth + 7 * 16
      · rw [if_pos hc] at hrs
        injection hrs with hrs
        omega
      · rw [if_neg hc] at hrs
        injection hrs with hrs
        subst hrs
        by_contra hcon
        exact hc ⟨rfl, hid, by omega⟩
    · intro hma re hre
      unfold mkDoseItem at hre
      dsimp only at hre
      by_cases hc : total = total ∧ v.id = "core_dap" ∧
          (doseRange interval mi ma dg last ms total d).2 < birth + 7 * 16
      · rw [if_pos hc] at hre
        injection hre with hre
        omega
      · rw [if_neg hc] at hre
        injection hre with hre
        subst hre
        by_contra hcon
        exact hc ⟨rfl, hid, by omega⟩

/-- Witness for C5 at concrete inputs: for the `"core_dap"` entry the clamped
final dose at day 84 moves to day 112 with the appended note, while the
`"core_x"` entry keeps day 84 and the base note. -/
theorem C5_final_dose_floor_witness :
    (mkDoseItem 0 c5CexDap 3 21 21 21 0 none 42 3 84).date = 0 + 7 * 16 ∧
    (mkDoseItem 0 c5CexDap 3 21 21 21 0 none 42 3 84).notes =
      seriesBaseNote c5CexDap 21 true ++ maternalNote ∧
    (mkDoseItem 0 c5CexVaccine 3 21 21 21 0 none 42 3 84).date = 84 ∧
    (mkDoseItem 0 c5CexVaccine 3 21 21 21 0 none 42 3 84).notes =
      seriesBaseNote c5CexVaccine 21 (decide (3 = 3)) :=
  ⟨(((C5_final_dose_floor 0 c5CexDap 3 21 21 21 0 none 42).2.2 rfl 84).1 (by decide)).1,
   (((C5_final_dose_floor 0 c5CexDap 3 21 21 21 0 none 42).2.2 rfl 84).1 (by decide)).2,
   (((C5_final_dose_floor 0 c5CexVaccine 3 21 21 21 0 none 42).2.1 (by decide) 3 84)).1,
   (((C5_final_dose_floor 0 c5CexVaccine 3 21 21 21 0 none 42).2.1 (by decide) 3 84)).2.1⟩

/-! ## Claims C1, C4, C10 -/

/-- C1: `calculate_schedule` fails with an `InvalidInput` (`ValueError`) error
if and only if `birth_date` is strictly after `reference_date`; when
`birth_date ≤ reference_date` it raises no such error and returns a schedule
list. -/
theorem C1_invalid_input_iff (catalog : List Vaccine) (birth_date : Int)
    (selected_noncore : List String) (past_history : List (String × List Int))
    (reference_date : Int) :
    ((∃ e, calculate_schedule catalog birth_date selected_noncore past_history reference_date
        = .error e) ↔ birth_date > reference_date) ∧
    ((∃ l, calculate_schedule catalog birth_date selected_noncore past_history reference_date
        = .ok l) ↔ birth_date ≤ reference_date) := by
  unfold calculate_schedule
  by_cases h : birth_date > reference_date
  · rw [if_pos h]
    refine ⟨⟨fun _ => h, fun _ => ⟨_, rfl⟩⟩, ?_, ?_⟩
    · rintro ⟨l, hl⟩
      cases hl
    · intro hle
      exact absurd h (not_lt.mpr hle)
  · rw [if_neg h]
    refine ⟨⟨?_, fun hgt => absurd hgt h⟩, fun _ => not_lt.mp h, fun _ => ⟨_, rfl⟩⟩
    rintro ⟨e, he⟩
    cases he

/-- C4 counterexample: a day difference of 115 floors to 16 weeks, yet the
classifier returns `"adolescent"`, not `"puppy"` — the code divides by 7.0
without flooring, so 115 days is 16.43 weeks > 16. -/
theorem C4_counterexample : (115 : Int) / 7 = 16 ∧ classify_dog_age 0 115 = "adolescent" := by
  constructor
  · decide
  · rw [classify_dog_age_cases]
    decide

/-- C4 (amended): the age classifier maps the pair of dates to exactly one of
the four labels using the exact (unfloored) rational week count
`days / 7`: `"puppy"` iff days ≤ 112, `"adolescent"` iff days ≤ 364,
`"adult"` iff days ≤ 2548 (weeks/52 ≤ 7), else `"senior"`. -/
theorem C4_classifier_thresholds (birth_date reference_date : Int) :
    classify_dog_age birth_date reference_date =
      (if reference_date - birth_date ≤ 112 then "puppy"
       else if reference_date - birth_date ≤ 364 then "adolescent"
       else if reference_date - birth_date ≤ 2548 then "adult"
       else "senior") :=
  classify_dog_age_cases birth_date reference_date

/-- C10: `classify_dog_age` is total: for every pair of dates it returns one
of the four labels, and when `birth_date` is strictly after `reference_date`
(negative day difference) the result is `"puppy"`. -/
theorem C10_classifier_total (birth_date reference_date : Int) :
    (classify_dog_age birth_date reference_date = "puppy" ∨
     classify_dog_age birth_date reference_date = "adolescent" ∨
     classify_dog_age birth_date reference_date = "adult" ∨
     classify_dog_age birth_date reference_date = "senior") ∧
    (reference_date < birth_date → classify_dog_age birth_date reference_date = "puppy") := by
  rw [classify_dog_age_cases]
  constructor
  · split_ifs <;> simp
  · intro h
    rw [if_pos (by omega : reference_date - birth_date ≤ 112)]

/-- Witness for C10 at a concrete input with `birth_date > reference_date`. -/
theorem C10_classifier_total_witness : classify_dog_age 5 3 = "puppy" :=
  (C10_classifier_total 5 3).2 (by decide)

/-! ## History analyzer (`RuleBasedScheduler.analyze_history`,
`core/scheduler.py` lines 266-307) -/

/-- Python `f"{x:.1f}"` for `x = days / 7.0`: round `10 * days / 7` to the
nearest integer and print with one decimal.  Exact ties are impossible for
`x = days / 7` (a tie would force `days ≡ 0 (mod 7)`, giving an exact `.0`
value), and the double value of `days / 7.0` is far closer to the exact
rational than to any tie point, so nearest-rounding of the exact rational
agrees with CPython's output. -/
def formatWeeks1 (days : Int) : String :=
  let n := Int.fdiv (20 * days + 7) 14
  if n < 0 then "-" ++ toString ((-n) / 10) ++ "." ++ toString ((-n) % 10)
  else toString (n / 10) ++ "." ++ toString (n % 10)

/-- Line 293. -/
def earlyLine (v_name : String) (dose_num : Nat) (ageDays : Int) : String :=
  let w := formatWeeks1 ageDays
  s!"- WARNING: {v_name} Dose {dose_num} given at {w} weeks. Potentially too early."

/-- Line 300. -/
def tooCloseLine (v_name : String) (dose_num : Nat) (interval mi : Int) : String :=
  s!"- WARNING: {v_name} Dose {dose_num} given {interval} days after previous. Too close (min {mi} days)."

/-- Line 302. -/
def overdueLine (v_name : String) (dose_num : Nat) (interval : Int) : String :=
  s!"- NOTE: {v_name} Dose {dose_num} given {interval} days after previous. Ensure series is not overdue."

/-- The `for i, date_given in enumerate(dates)` loop (lines 287-302): `i` is
the running index, `prev` the previous date (`dates[i-1]`, used only when
`dose_num > 1`).  The age check `age_at_dose_weeks < 6` is
`(d - birth) / 7.0 < 6`, exactly `d - birth < 42`. -/
def doseLinesAux (birth : Int) (v_name : String) (mi ma : Int) :
    Nat → Option Int → List Int → List String
  | _, _, [] => []
  | i, prev, d :: rest =>
    let dose_num := i + 1
    let early := if d - birth < 42 then [earlyLine v_name dose_num (d - birth)] else []
    let inter :=
      if 1 < dose_num then
        match prev with
        | some p =>
          let interval := d - p
          if interval < mi then [tooCloseLine v_name dose_num interval mi]
          else if interval > ma then [overdueLine v_name dose_num interval]
          else []
        | none => []
      else []
    early ++ inter ++ doseLinesAux birth v_name mi ma (i + 1) (some d) rest

/-- The analysis lines contributed by one vaccine's sorted dose dates. -/
def doseLines (birth : Int) (v_name : String) (mi ma : Int) (dates : List Int) : List String :=
  doseLinesAux birth v_name mi ma 0 none dates

/-- Lines 274-302 for one history entry: unknown ids contribute nothing
(line 277 `continue`); a known id reads `v_config['rules'][0]` (line 283),
which raises `IndexError` on an empty rule list, and uses
`rule.get('min_interval', 14)` / `rule.get('max_interval', 42)`. -/
def vaccineAnalysisLines (catalog : List Vaccine) (birth : Int)
    (entry : String × List Int) : Except String (List String) :=
  match catalog.find? (fun v => v.id == entry.1) with
  | none => .ok []
  | some v_config =>
    match v_config.rules.head? with
    | none => .error "IndexError: list index out of range"
    | some rule =>
      .ok (doseLines birth v_config.name (rule.min_interval.getD 14)
        (rule.max_interval.getD 42) (sortDates entry.2))

/-- `analysis_lines` accumulated over the whole history dict. -/
def analysisLines (catalog : List Vaccine) (birth : Int) :
    List (String × List Int) → Except String (List String)
  | [] => .ok []
  | e :: rest =>
    match vaccineAnalysisLines catalog birth e with
    | .error err => .error err
    | .ok ls =>
      match analysisLines catalog birth rest with
      | .error err => .error err
      | .ok rest2 => .ok (ls ++ rest2)

/-- `analyze_history` (lines 266-307): join the lines, or return the fixed
message when none were produced. -/
def analyze_history (catalog : List Vaccine) (birth : Int)
    (past_history : List (String × List Int)) : Except String String :=
  match analysisLines catalog birth past_history with
  | .error err => .error err
  | .ok [] => .ok "History appears consistent with standard timing intervals."
  | .ok lines => .ok (String.intercalate "\n" lines)

/-! ## Structural lemmas about the analyzer -/

lemma mem_doseLinesAux_tail (birth : Int) (v_name : String) (mi ma : Int)
    (i : Nat) (prev : Option Int) (d : Int) (rest : List Int) (s : String)
    (hs : s ∈ doseLinesAux birth v_name mi ma (i + 1) (some d) rest) :
    s ∈ doseLinesAux birth v_name mi ma i prev (d :: rest) := by
  rw [doseLinesAux.eq_def]
  dsimp only
  rw [List.mem_append]
  exact Or.inr hs

lemma early_mem_doseLinesAux (birth : Int) (v_name : String) (mi ma : Int) :
    ∀ (ds : List Int) (i : Nat) (prev : Option Int) (j : Nat) (h : j < ds.length),
      ds.get ⟨j, h⟩ - birth < 42 →
      earlyLine v_name (i + j + 1) (ds.get ⟨j, h⟩ - birth) ∈
        doseLinesAux birth v_name mi ma i prev ds := by
  intro ds
  induction ds with
  | nil =>
    intro i prev j h
    simp at h
  | cons d rest ih =>
    intro i prev j h hage
    cases j with
    | zero =>
      rw [doseLinesAux.eq_def]
      dsimp only
      rw [List.mem_append, List.mem_append]
      left; left
      simp only [List.get] at hage
      rw [if_pos hage]
      simp only [List.get, List.mem_singleton]
    | succ j2 =>
      have h2 : j2 < rest.length := by
        simp only [List.length_cons] at h
        omega
      simp only [List.get] at hage ⊢
      have harith : i + (j2 + 1) + 1 = (i + 1) + j2 + 1 := by omega
      rw [harith]
      exact mem_doseLinesAux_tail birth v_name mi ma i prev d rest _
        (ih (i + 1) (some d) j2 h2 hage)

lemma headpair_mem_doseLinesAux (birth : Int) (v_name : String) (mi ma : Int)
    (i : Nat) (p d : Int) (rest : List Int) :
    (d - p < mi → tooCloseLine v_name (i + 2) (d - p) mi ∈
        doseLinesAux birth v_name mi ma (i + 1) (some p) (d :: rest)) ∧
    (¬(d - p < mi) → d - p > ma → overdueLine v_name (i + 2) (d - p) ∈
        doseLinesAux birth v_name mi ma (i + 1) (some p) (d :: rest)) := by
  constructor
  · intro hlt
    rw [doseLinesAux.eq_def]
    dsimp only
    rw [List.mem_append, List.mem_append]
    left; right
    rw [if_pos (by omega : 1 < i + 1 + 1)]
    rw [if_pos hlt]
    simp only [List.mem_singleton]
  · intro hge hgt
    rw [doseLinesAux.eq_def]
    dsimp only
    rw [List.mem_append, List.mem_append]
    left; right
    rw [if_pos (by omega : 1 < i + 1 + 1)]
    rw [if_neg hge, if_pos hgt]
    simp only [List.mem_singleton]

lemma pair_mem_doseLinesAux (birth : Int) (v_name : String) (mi ma : Int) :
    ∀ (ds : List Int) (i : Nat) (prev : Option Int) (j : Nat) (h : j + 1 < ds.length),
      (ds.get ⟨j + 1, h⟩ - ds.get ⟨j, by omega⟩ < mi →
        tooCloseLine v_name (i + j + 2) (ds.get ⟨j + 1, h⟩ - ds.get ⟨j, by omega⟩) mi ∈
          doseLinesAux birth v_name mi ma i prev ds) ∧
      (¬(ds.get ⟨j + 1, h⟩ - ds.get ⟨j, by omega⟩ < mi) →
        ds.get ⟨j + 1, h⟩ - ds.get ⟨j, by omega⟩ > ma →
        overdueLine v_name (i + j + 2) (ds.get ⟨j + 1, h⟩ - ds.get ⟨j, by omega⟩) ∈
          doseLinesAux birth v_name mi ma i prev ds) := by
  intro ds
  induction ds with
  | nil =>
    intro i prev j h
    simp at h
  | cons d rest ih =>
    intro i prev j h
    cases j with
    | zero =>
      cases rest with
      | nil => simp at h
      | cons d2 rest2 =>
        simp only [List.get]
        constructor
        · intro hlt
          exact mem_doseLinesAux_tail birth v_name mi ma i prev d (d2 :: rest2) _
            ((headpair_mem_doseLinesAux birth v_name mi ma i d d2 rest2).1 hlt)
        · intro hge hgt
          exact mem_doseLinesAux_tail birth v_name mi ma i prev d (d2 :: rest2) _
            ((headpair_mem_doseLinesAux birth v_name mi ma i d d2 rest2).2 hge hgt)
    | succ j2 =>
      have h2 : j2 + 1 < rest.length := by
        simp only [List.length_cons] at h
        omega
      simp only [List.get]
      have harith : i + (j2 + 1) + 2 = (i + 1) + j2 + 2 := by omega
      rw [harith]
      constructor
      · intro hlt
        exact mem_doseLinesAux_tail birth v_name mi ma i prev d rest _
          ((ih (i + 1) (some d) j2 h2).1 hlt)
      · intro hge hgt
        exact mem_doseLinesAux_tail birth v_name mi ma i prev d rest _
          ((ih (i + 1) (some d) j2 h2).2 hge hgt)

lemma vaccineLines_subset_analysisLines (catalog : List Vaccine) (birth : Int) :
    ∀ (hist : List (String × List Int)) (L : List String) (e : String × List Int)
      (ls : List String),
      analysisLines catalog birth hist = .ok L → e ∈ hist →
      vaccineAnalysisLines catalog birth e = .ok ls → ∀ s ∈ ls, s ∈ L := by
  intro hist
  induction hist with
  | nil =>
    intro L e ls _ he
    simp at he
  | cons e0 rest ih =>
    intro L e ls hok he hls s hs
    rw [analysisLines] at hok
    rcases h0 : vaccineAnalysisLines catalog birth e0 with err | ls0 <;> rw [h0] at hok
    · cases hok
    · rcases hr : analysisLines catalog birth rest with err | Lr <;> rw [hr] at hok
      · cases hok
      · injection hok with hok
        subst hok
        rcases List.mem_cons.mp he with rfl | he2
        · rw [h0] at hls
          injection hls with hls
          subst hls
          exact List.mem_append.mpr (Or.inl hs)
        · exact List.mem_append.mpr (Or.inr (ih Lr e ls hr he2 hls s hs))

/-! ## Claim C6 -/

/-- C6 counterexample catalog entry: the first rule (puppy branch,
`min_interval = 21`) differs from the adult branch (`min_interval = 7`) that
matches the subject's age. -/
def c6CexVaccine : Vaccine :=
  { id := "core_m", name := "M", vtype := "core",
    rules := [{ condition := .leWeeks 16, doses := 3, interval_days := 21,
                min_interval := some 21, initial_booster_days := 365 },
              { condition := .gtWeeks 16, doses := 2, interval_days := 21,
                min_interval := some 7, max_interval := some 60,
                initial_booster_days := 365 }] }

/-- C6 counterexample: two doses at days 560 and 570 (ages 80 and 81.4
weeks).  The active (age-matched) rule at either dose's age is the adult
branch with minimum interval 7, and the 10-day interval is not below it, so
the claim predicts no warning — yet `analyze_history` emits a "Too close
(min 21 days)" warning, because it always reads `rules[0]`, the puppy
branch. -/
theorem C6_counterexample :
    analyze_history [c6CexVaccine] 0 [("core_m", [560, 570])] =
      .ok "- WARNING: M Dose 2 given 10 days after previous. Too close (min 21 days)." ∧
    findActiveRule (560 - 0) c6CexVaccine.rules =
      some { condition := .gtWeeks 16, doses := 2, interval_days := 21,
             min_interval := some 7, max_interval := some 60,
             initial_booster_days := 365 } ∧
    findActiveRule (570 - 0) c6CexVaccine.rules =
      some { condition := .gtWeeks 16, doses := 2, interval_days := 21,
             min_interval := some 7, max_interval := some 60,
             initial_booster_days := 365 } ∧
    ¬ ((570 : Int) - 560 < 7) :=
  ⟨rfl, rfl, rfl, by decide⟩

/-- C6 (amended): for every vaccine with at least one historical dose,
`analyze_history` flags any dose administered before the subject was 6 weeks
old (day difference < 42) as potentially too early, and for every consecutive
pair of sorted doses compares their interval against the minimum and maximum
interval of the FIRST rule in the vaccine's rule list (defaults 14 and 42
days when absent) — not the age-matched active rule — emitting a "too close"
warning when the interval is below that minimum and an overdue-verification
note when it exceeds that maximum (and is not also below the minimum). -/
theorem C6_history_flags (catalog : List Vaccine) (birth : Int)
    (hist : List (String × List Int)) (vid : String) (dates : List Int)
    (v : Vaccine) (rule : AgeRule) (L : List String)
    (hmem : (vid, dates) ∈ hist)
    (hfind : catalog.find? (fun w => w.id == vid) = some v)
    (hrule : v.rules.head? = some rule)
    (hok : analysisLines catalog birth hist = .ok L) :
    (∀ (i : Nat) (h : i < (sortDates dates).length),
       (sortDates dates).get ⟨i, h⟩ - birth < 42 →
       earlyLine v.name (i + 1) ((sortDates dates).get ⟨i, h⟩ - birth) ∈ L) ∧
    (∀ (i : Nat) (h : i + 1 < (sortDates dates).length),
       (sortDates dates).get ⟨i + 1, h⟩ - (sortDates dates).get ⟨i, by omega⟩ <
           rule.min_interval.getD 14 →
       tooCloseLine v.name (i + 2)
         ((sortDates dates).get ⟨i + 1, h⟩ - (sortDates dates).get ⟨i, by omega⟩)
         (rule.min_interval.getD 14) ∈ L) ∧
    (∀ (i : Nat) (h : i + 1 < (sortDates dates).length),
       ¬ ((sortDates dates).get ⟨i + 1, h⟩ - (sortDates dates).get ⟨i, by omega⟩ <
           rule.min_interval.getD 14) →
       (sortDates dates).get ⟨i + 1, h⟩ - (sortDates dates).get ⟨i, by omega⟩ >
           rule.max_interval.getD 42 →
       overdueLine v.name (i + 2)
         ((sortDates dates).get ⟨i + 1, h⟩ - (sortDates dates).get ⟨i, by omega⟩) ∈ L) := by
  have hls : vaccineAnalysisLines catalog birth (vid, dates) =
      .ok (doseLines birth v.name (rule.min_interval.getD 14) (rule.max_interval.getD 42)
        (sortDates dates)) := by
    unfold vaccineAnalysisLines
    dsimp only
    rw [hfind]
    dsimp only
    rw [hrule]
  have hsub := vaccineLines_subset_analysisLines catalog birth hist L (vid, dates) _ hok hmem hls
  refine ⟨?_, ?_, ?_⟩
  · intro i h hage
    apply hsub
    have hline := early_mem_doseLinesAux birth v.name (rule.min_interval.getD 14)
      (rule.max_interval.getD 42) (sortDates dates) 0 none i h hage
    simpa [doseLines] using hline
  · intro i h hlt
    apply hsub
    have hline := (pair_mem_doseLinesAux birth v.name (rule.min_interval.getD 14)
      (rule.max_interval.getD 42) (sortDates dates) 0 none i h).1 hlt
    simpa [doseLines] using hline
  · intro i h hge hgt
    apply hsub
    have hline := (pair_mem_doseLinesAux birth v.name (rule.min_interval.getD 14)
      (rule.max_interval.getD 42) (sortDates dates) 0 none i h).2 hge hgt
    simpa [doseLines] using hline

/-- C6 witness catalog entry. -/
def c6WitVaccine : Vaccine :=
  { id := "core_dap", name := "DAP", vtype := "core",
    rules := [{ condition := .allAges, doses := 3, interval_days := 21,
                min_interval := some 14, max_interval := some 28,
                initial_booster_days := 365 }] }

/-- Witness for C6 at a concrete input: doses at days 20, 30, 100 (sorted
from the unsorted history) produce an early warning for dose 1, a too-close
warning for the 10-day gap and an overdue note for the 70-day gap. -/
theorem C6_history_flags_witness :
    earlyLine "DAP" 1 20 ∈
      ["- WARNING: DAP Dose 1 given at 2.9 weeks. Potentially too early.",
       "- WARNING: DAP Dose 2 given at 4.3 weeks. Potentially too early.",
       "- WARNING: DAP Dose 2 given 10 days after previous. Too close (min 14 days).",
       "- NOTE: DAP Dose 3 given 70 days after previous. Ensure series is not overdue."] ∧
    tooCloseLine "DAP" 2 10 14 ∈
      ["- WARNING: DAP Dose 1 given at 2.9 weeks. Potentially too early.",
       "- WARNING: DAP Dose 2 given at 4.3 weeks. Potentially too early.",
       "- WARNING: DAP Dose 2 given 10 days after previous. Too close (min 14 days).",
       "- NOTE: DAP Dose 3 given 70 days after previous. Ensure series is not overdue."] ∧
    overdueLine "DAP" 3 70 ∈
      ["- WARNING: DAP Dose 1 given at 2.9 weeks. Potentially too early.",
       "- WARNING: DAP Dose 2 given at 4.3 weeks. Potentially too early.",
       "- WARNING: DAP Dose 2 given 10 days after previous. Too close (min 14 days).",
       "- NOTE: DAP Dose 3 given 70 days after previous. Ensure series is not overdue."] :=
  have h := C6_history_flags [c6WitVaccine] 0 [("core_dap", [30, 20, 100])]
    "core_dap" [30, 20, 100] c6WitVaccine
    { condition := .allAges, doses := 3, interval_days := 21,
      min_interval := some 14, max_interval := some 28, initial_booster_days := 365 }
    ["- WARNING: DAP Dose 1 given at 2.9 weeks. Potentially too early.",
     "- WARNING: DAP Dose 2 given at 4.3 weeks. Potentially too early.",
     "- WARNING: DAP Dose 2 given 10 days after previous. Too close (min 14 days).",
     "- NOTE: DAP Dose 3 given 70 days after previous. Ensure series is not overdue."]
    (by decide) rfl rfl rfl
  ⟨h.1 0 (by decide) (by decide),
   h.2.1 0 (by decide) (by decide),
   h.2.2 1 (by decide) (by decide) (by decide)⟩

/-! ## Claim C7 -/

lemma analysisLines_isOk (catalog : List Vaccine) (birth : Int)
    (hrules : ∀ v ∈ catalog, v.rules ≠ []) :
    ∀ hist, ∃ L, analysisLines catalog birth hist = .ok L := by
  intro hist
  induction hist with
  | nil => exact ⟨[], rfl⟩
  | cons e rest ih =>
    obtain ⟨L, hL⟩ := ih
    have he : ∃ ls, vaccineAnalysisLines catalog birth e = .ok ls := by
      rcases hf : catalog.find? (fun w => w.id == e.1) with _ | v
      · exact ⟨[], by unfold vaccineAnalysisLines; rw [hf]⟩
      · have hv : v ∈ catalog := List.mem_of_find?_eq_some hf
        rcases hvr : v.rules with _ | ⟨r, rs⟩
        · exact absurd hvr (hrules v hv)
        · refine ⟨doseLines birth v.name (r.min_interval.getD 14) (r.max_interval.getD 42)
            (sortDates e.2), ?_⟩
          unfold vaccineAnalysisLines
          rw [hf]
          dsimp only
          rw [hvr]
          rfl
    obtain ⟨ls, hls⟩ := he
    exact ⟨ls ++ L, by rw [analysisLines, hls, hL]⟩

/-- C7: `analyze_history` is non-throwing for every input (the spec's catalog
carries "one or more" rules per vaccine, the `hrules` hypothesis): history
entries whose vaccine id is absent from the catalog are silently skipped
without error or finding (the entry contributes no lines and removing it
leaves the analysis unchanged), and when no finding is produced the function
returns the fixed "consistent with standard timing" message. -/
theorem C7_analyzer_nonthrowing (catalog : List Vaccine) (birth : Int)
    (hist : List (String × List Int))
    (hrules : ∀ v ∈ catalog, v.rules ≠ []) :
    (∃ s, analyze_history catalog birth hist = .ok s) ∧
    (∀ vid ds, catalog.find? (fun w => w.id == vid) = none →
       vaccineAnalysisLines catalog birth (vid, ds) = .ok [] ∧
       analysisLines catalog birth ((vid, ds) :: hist) =
         analysisLines catalog birth hist) ∧
    (analysisLines catalog birth hist = .ok [] →
       analyze_history catalog birth hist =
         .ok "History appears consistent with standard timing intervals.") := by
  refine ⟨?_, ?_, ?_⟩
  · obtain ⟨L, hL⟩ := analysisLines_isOk catalog birth hrules hist
    unfold analyze_history
    rw [hL]
    rcases L with _ | ⟨l0, ls⟩
    · exact ⟨_, rfl⟩
    · exact ⟨_, rfl⟩
  · intro vid ds hnone
    have hv : vaccineAnalysisLines catalog birth (vid, ds) = .ok [] := by
      unfold vaccineAnalysisLines
      dsimp only
      rw [hnone]
    refine ⟨hv, ?_⟩
    rw [analysisLines, hv]
    rcases hr : analysisLines catalog birth hist with err | L <;> rfl
  · intro h0
    unfold analyze_history
    rw [h0]

/-- C7 witness catalog entry. -/
def c7WitVaccine : Vaccine :=
  { id := "core_dap", name := "DAP", vtype := "core",
    rules := [{ condition := .allAges, doses := 3, interval_days := 21,
                initial_booster_days := 365 }] }

/-- Witness for C7 at a concrete input: a history that only references an
unknown vaccine id is silently skipped and yields the fixed message. -/
theorem C7_analyzer_nonthrowing_witness :
    (∃ s, analyze_history [c7WitVaccine] 0 [("unknown_id", [5])] = .ok s) ∧
    vaccineAnalysisLines [c7WitVaccine] 0 ("unknown_id", [5]) = .ok [] ∧
    analyze_history [c7WitVaccine] 0 [("unknown_id", [5])] =
      .ok "History appears consistent with standard timing intervals." :=
  have h := C7_analyzer_nonthrowing [c7WitVaccine] 0 [("unknown_id", [5])] (by decide)
  ⟨h.1, (h.2.1 "unknown_id" [5] rfl).1, h.2.2 rfl⟩

/-! ## Contraindication evaluator (`core/contraindications.py`) -/

/-- `MEDICATION_CATALOG['flea_tick']['options']` as (id, label) pairs. -/
def fleaTickOptions : List (String × String) :=
  [("nexgard", "NexGard"), ("bravecto", "Bravecto"), ("simparica", "Simparica"),
   ("credelio", "Credelio"), ("frontline", "Frontline (Fipronil)"),
   ("seresto", "Seresto Collar"), ("revolution", "Revolution (Selamectin)"),
   ("comfortis", "Comfortis (Spinosad)")]

/-- `ISOXAZOLINE_MEDS` (line 98). -/
def ISOXAZOLINE_MEDS : List String := ["nexgard", "bravecto", "simparica", "credelio"]

/-- A subject's health context: diagnosed conditions plus a mapping of
medication category to medication ids. -/
structure HealthContext where
  medical_conditions : List String
  medications : List (String × List String)
deriving DecidableEq

/-- `medications.get(category, [])`. -/
def medsLookup (medications : List (String × List String)) (category : String) : List String :=
  match medications.find? (fun p => p.1 == category) with
  | some p => p.2
  | none => []

def epilepsyDapText : String :=
  "EPILEPSY CAUTION: For epileptic dogs, request recombinant CDV component instead of modified-live. Administer separately from other vaccines. Space all vaccines 3-4 weeks apart. Consider titer testing before revaccination. (AAHA 2024)"

def epilepsyRabiesText : String :=
  "EPILEPSY CAUTION: Use 3-year rabies schedule where legally permitted. Administer separately from all other vaccines. Monitor for seizure activity for 30 days post-vaccination. (AAHA 2024; WSAVA 2024)"

def epilepsyLeptoText : String :=
  "EPILEPSY WARNING: Leptospirosis vaccine has the highest adverse reaction rate among canine vaccines. Neurological adverse events including seizures have been reported. AVOID unless dog has genuine high exposure risk (wildlife contact, standing water). If administered, give separately and monitor closely for 48-72 hours. (AAHA 2024)"

def epilepsyNoncoreText : String :=
  "EPILEPSY NOTE: For epileptic dogs, non-core vaccines should only be administered if there is genuine exposure risk. Space 3-4 weeks apart from other vaccines. Never combine multiple vaccines in one visit. (AAHA 2024; WSAVA 2024)"

def isoxWarningText (names : String) : String :=
  s!"FDA SEIZURE WARNING: Isoxazoline flea/tick products ({names}) have an FDA warning for seizures, tremors, and ataxia in dogs. These should be AVOIDED in dogs with epilepsy or seizure history. Safer alternatives include Frontline (fipronil), Revolution (selamectin), or Comfortis (spinosad). (FDA Animal Drug Safety Communication, 2018)"

def serestoText : String :=
  "CAUTION: Seresto collar has reported neurological adverse events including convulsions and ataxia. Use with caution in epileptic dogs and monitor closely. (EPA Adverse Event Reports)"

def autoimmuneAlertText : String :=
  "AUTOIMMUNE ALERT: Dogs with autoimmune disease should AVOID vaccination during active disease flares. Titer testing is strongly recommended over revaccination for core vaccines (CDV, CPV, CAV). (AAHA 2024; WSAVA 2024)"

def mlvImmunoText : String :=
  "CONTRAINDICATED: Modified-live vaccines (MLV) are contraindicated while on immunosuppressive medications. MLV vaccines can cause disease in immunosuppressed patients. Wait at least 2-4 weeks after stopping immunosuppressive therapy before vaccinating. (WSAVA 2024)"

def apoquelText : String :=
  "APOQUEL CONTRAINDICATION: Avoid ALL vaccines during Oclacitinib (Apoquel) treatment and for 28 days after discontinuation. Apoquel suppresses immune response, increasing risk of vaccine-induced disease from MLV vaccines and making killed vaccines ineffective. (Zoetis prescribing information; WSAVA 2024)"

def cancerMlvText : String :=
  "CONTRAINDICATED: Modified-live vaccines are contraindicated during cancer treatment. MLV vaccines can cause disease in immunocompromised patients. Titer testing is recommended to assess existing immunity. (WSAVA 2024; AAHA 2024)"

def cancerKilledText : String :=
  "CANCER/CHEMO NOTE: Killed vaccines are likely ineffective during active chemotherapy due to suppressed immune response. Wait minimum 2 weeks (ideally 4-8 weeks) after completing chemotherapy before vaccinating. Titer testing is preferred over revaccination. (WSAVA 2024; AAHA 2024)"

def activeChemoText : String :=
  "ACTIVE CHEMOTHERAPY: Patient is currently on chemotherapy agents. Vaccination should be deferred until treatment is complete. If possible, vaccinate at least 14 days BEFORE starting chemotherapy. (AAHA 2024)"

/-- `_evaluate_epilepsy` (lines 129-198). -/
def evalEpilepsy (vaccine_id _vaccine_type : String)
    (medications : List (String × List String)) : List (String × Bool) :=
  let vaccineWarnings : List (String × Bool) :=
    if vaccine_id == "core_dap" then [(epilepsyDapText, false)]
    else if vaccine_id == "core_rabies" then [(epilepsyRabiesText, false)]
    else if vaccine_id == "core_lepto" then [(epilepsyLeptoText, false)]
    else if "noncore_".isPrefixOf vaccine_id then [(epilepsyNoncoreText, false)]
    else []
  let flea_tick_meds := medsLookup medications "flea_tick"
  let isox_used := flea_tick_meds.filter (fun m => ISOXAZOLINE_MEDS.contains m)
  let isoxWarnings : List (String × Bool) :=
    if isox_used ≠ [] then
      let isox_labels := isox_used.filterMap
        (fun mid => (fleaTickOptions.find? (fun o => o.1 == mid)).map (fun o => o.2))
      [(isoxWarningText (String.intercalate ", " isox_labels), false)]
    else []
  let serestoWarnings : List (String × Bool) :=
    if flea_tick_meds.contains "seresto" then [(serestoText, false)] else []
  vaccineWarnings ++ isoxWarnings ++ serestoWarnings

/-- `_evaluate_autoimmune` (lines 201-240). -/
def evalAutoimmune (_vaccine_id vaccine_type : String)
    (medications : List (String × List String)) : List (String × Bool) :=
  let is_mlv := vaccine_type == "mlv"
  let immuno_meds := medsLookup medications "immunosuppressive"
  let on_apoquel := immuno_meds.contains "apoquel"
  let on_any_immunosuppressive := decide (0 < immuno_meds.length)
  [(autoimmuneAlertText, false)] ++
  (if is_mlv && on_any_immunosuppressive then [(mlvImmunoText, true)] else []) ++
  (if on_apoquel then [(apoquelText, true)] else [])

/-- `_evaluate_cancer` (lines 243-277). -/
def evalCancer (_vaccine_id vaccine_type : String)
    (medications : List (String × List String)) : List (String × Bool) :=
  let is_mlv := vaccine_type == "mlv"
  let chemo_meds := medsLookup medications "chemo_agents"
  let on_chemo := decide (0 < chemo_meds.length)
  (if is_mlv then [(cancerMlvText, true)] else [(cancerKilledText, false)]) ++
  (if on_chemo then [(activeChemoText, true)] else [])

/-- `evaluate_condition_warnings` (lines 101-126). -/
def evaluate_condition_warnings (vaccine_id vaccine_type : String)
    (health_context : HealthContext) : List (String × Bool) :=
  let conditions := health_context.medical_conditions
  let medications := health_context.medications
  (if conditions.contains "epilepsy" then evalEpilepsy vaccine_id vaccine_type medications
   else []) ++
  (if conditions.contains "autoimmune" then evalAutoimmune vaccine_id vaccine_type medications
   else []) ++
  (if conditions.contains "cancer" then evalCancer vaccine_id vaccine_type medications
   else [])

/-! ## Claim C8 -/

lemma evalEpilepsy_all_false (vid t : String) (meds : List (String × List String)) :
    ∀ w ∈ evalEpilepsy vid t meds, w.2 = false := by
  intro w hw
  unfold evalEpilepsy at hw
  dsimp only at hw
  rw [List.mem_append, List.mem_append] at hw
  rcases hw with (hw | hw) | hw
  · repeat' split at hw
    all_goals simp_all
  · repeat' split at hw
    all_goals simp_all
  · repeat' split at hw
    all_goals simp_all

lemma evalAutoimmune_mlv_mem (vid : String) (meds : List (String × List String))
    (h : medsLookup meds "immunosuppressive" ≠ []) :
    (mlvImmunoText, true) ∈ evalAutoimmune vid "mlv" meds := by
  unfold evalAutoimmune
  dsimp only
  rw [List.mem_append, List.mem_append]
  left; right
  have hc : (("mlv" == "mlv") && decide (0 < (medsLookup meds "immunosuppressive").length))
      = true := by
    simp [List.length_pos.mpr h]
  rw [if_pos hc]
  simp

lemma evalCancer_mlv_mem (vid : String) (meds : List (String × List String)) :
    (cancerMlvText, true) ∈ evalCancer vid "mlv" meds := by
  unfold evalCancer
  dsimp only
  rw [List.mem_append]
  left
  rw [if_pos (by decide : (("mlv" == "mlv") : Bool) = true)]
  simp

lemma evalAutoimmune_killed_true (vid : String) (meds : List (String × List String)) :
    ∀ w ∈ evalAutoimmune vid "killed" meds, w.2 = true →
      w.1 = apoquelText ∧ "apoquel" ∈ medsLookup meds "immunosuppressive" := by
  intro w hw htrue
  unfold evalAutoimmune at hw
  dsimp only at hw
  rw [List.mem_append, List.mem_append] at hw
  rcases hw with (hw | hw) | hw
  · rw [List.mem_singleton] at hw
    subst hw
    simp at htrue
  · split at hw
    · simp_all
    · simp at hw
  · split at hw
    · rw [List.mem_singleton] at hw
      subst hw
      refine ⟨rfl, ?_⟩
      next hcond => exact List.mem_of_elem_eq_true hcond
    · simp at hw

lemma evalCancer_killed_true (vid : String) (meds : List (String × List String)) :
    ∀ w ∈ evalCancer vid "killed" meds, w.2 = true →
      w.1 = activeChemoText ∧ medsLookup meds "chemo_agents" ≠ [] := by
  intro w hw htrue
  unfold evalCancer at hw
  dsimp only at hw
  rw [List.mem_append] at hw
  rcases hw with hw | hw
  · split at hw
    · simp_all
    · rw [List.mem_singleton] at hw
      subst hw
      simp at htrue
  · split at hw
    · rw [List.mem_singleton] at hw
      subst hw
      refine ⟨rfl, ?_⟩
      next hcond =>
        rw [decide_eq_true_eq] at hcond
        exact List.ne_nil_of_length_pos hcond
    · simp at hw

set_option maxRecDepth 8000 in
/-- C8 counterexample: a killed vaccine evaluated for a cancer patient on an
active chemotherapy agent receives a finding with `is_contraindicated = true`
(the "ACTIVE CHEMOTHERAPY" rule fires regardless of formulation), so for this
immunosuppressive context not every killed-vaccine finding is cautionary. -/
theorem C8_counterexample :
    (activeChemoText, true) ∈
      evaluate_condition_warnings "core_lepto" "killed"
        { medical_conditions := ["cancer"],
          medications := [("chemo_agents", ["doxorubicin"])] } := by decide

/-- C8 (amended): for every health context with an immunosuppressive
condition (autoimmune disease with immunosuppressive medication, or cancer),
the evaluator returns at least one finding with `is_contraindicated = true`
for a live-attenuated (`"mlv"`) vaccine; for a killed vaccine every finding
with `is_contraindicated = true` in any context is either the Apoquel rule
(autoimmune, Apoquel among the immunosuppressive medications) or the
active-chemotherapy rule (cancer, non-empty chemotherapy agents) — all other
killed-vaccine findings are cautionary with `is_contraindicated = false`. -/
theorem C8_contraindication_flags (hc : HealthContext) (vid : String) :
    ((("autoimmune" ∈ hc.medical_conditions ∧
        medsLookup hc.medications "immunosuppressive" ≠ []) ∨
      "cancer" ∈ hc.medical_conditions) →
      ∃ w ∈ evaluate_condition_warnings vid "mlv" hc, w.2 = true) ∧
    (∀ w ∈ evaluate_condition_warnings vid "killed" hc, w.2 = true →
      (w.1 = apoquelText ∧ "autoimmune" ∈ hc.medical_conditions ∧
        "apoquel" ∈ medsLookup hc.medications "immunosuppressive") ∨
      (w.1 = activeChemoText ∧ "cancer" ∈ hc.medical_conditions ∧
        medsLookup hc.medications "chemo_agents" ≠ [])) := by
  constructor
  · intro hctx
    rcases hctx with ⟨hauto, himm⟩ | hcancer
    · refine ⟨(mlvImmunoText, true), ?_, rfl⟩
      unfold evaluate_condition_warnings
      dsimp only
      rw [List.mem_append, List.mem_append]
      left; right
      rw [if_pos (List.elem_eq_true_of_mem hauto)]
      exact evalAutoimmune_mlv_mem vid hc.medications himm
    · refine ⟨(cancerMlvText, true), ?_, rfl⟩
      unfold evaluate_condition_warnings
      dsimp only
      rw [List.mem_append]
      right
      rw [if_pos (List.elem_eq_true_of_mem hcancer)]
      exact evalCancer_mlv_mem vid hc.medications
  · intro w hw htrue
    unfold evaluate_condition_warnings at hw
    dsimp only at hw
    rw [List.mem_append, List.mem_append] at hw
    rcases hw with (hw | hw) | hw
    · split at hw
      · exact absurd htrue (by simp [evalEpilepsy_all_false vid "killed" hc.medications w hw])
      · simp at hw
    · split at hw
      · next hcond =>
          exact Or.inl ⟨(evalAutoimmune_killed_true vid hc.medications w hw htrue).1,
            List.mem_of_elem_eq_true hcond,
            (evalAutoimmune_killed_true vid hc.medications w hw htrue).2⟩
      · simp at hw
    · split at hw
      · next hcond =>
          exact Or.inr ⟨(evalCancer_killed_true vid hc.medications w hw htrue).1,
            List.mem_of_elem_eq_true hcond,
            (evalCancer_killed_true vid hc.medications w hw htrue).2⟩
      · simp at hw

set_option maxRecDepth 8000 in
/-- Witness for C8 at a concrete context (autoimmune on prednisone, plus
cancer): an `mlv` vaccine gets a blocking finding, and the killed-vaccine
blocking finding produced by the same context is the active-chemotherapy
rule. -/
theorem C8_contraindication_flags_witness :
    (∃ w ∈ evaluate_condition_warnings "core_dap" "mlv"
        { medical_conditions := ["autoimmune", "cancer"],
          medications := [("immunosuppressive", ["prednisone"]),
                          ("chemo_agents", ["doxorubicin"])] }, w.2 = true) ∧
    (((activeChemoText, true).1 = apoquelText ∧
      "autoimmune" ∈ ["autoimmune", "cancer"] ∧
      "apoquel" ∈ medsLookup [("immunosuppressive", ["prednisone"]),
                              ("chemo_agents", ["doxorubicin"])] "immunosuppressive") ∨
    ((activeChemoText, true).1 = activeChemoText ∧
      "cancer" ∈ ["autoimmune", "cancer"] ∧
      medsLookup [("immunosuppressive", ["prednisone"]),
                  ("chemo_agents", ["doxorubicin"])] "chemo_agents" ≠ [])) :=
  have h := C8_contraindication_flags
    { medical_conditions := ["autoimmune", "cancer"],
      medications := [("immunosuppressive", ["prednisone"]),
                      ("chemo_agents", ["doxorubicin"])] } "core_dap"
  ⟨h.1 (Or.inl ⟨by decide, by decide⟩),
   h.2 (activeChemoText, true) (by decide) rfl⟩

/-! ## Reminder batch job (`apps/dashboard/management/commands/send_reminders.py`,
per-candidate step of `Command.handle`, lines 137-196) -/

/-- One `ReminderLog` row: the dedup key plus `sent_at` (timestamps and the
resend comparison are modelled in seconds). -/
structure ReminderRecord where
  user : Nat
  dog : Nat
  vaccine_id : String
  dose_number : Option Nat
  scheduled_date : Int
  sent_at : Int
deriving DecidableEq

/-- The dedup key: (user, dog, vaccine id, dose number, scheduled date). -/
structure ReminderKey where
  user : Nat
  dog : Nat
  vaccine_id : String
  dose_number : Option Nat
  scheduled_date : Int
deriving DecidableEq

/-- The filter of lines 139-148. -/
def recMatches (k : ReminderKey) (r : ReminderRecord) : Bool :=
  r.user == k.user && r.dog == k.dog && r.vaccine_id == k.vaccine_id &&
    r.dose_number == k.dose_number && r.scheduled_date == k.scheduled_date

/-- `.order_by('-sent_at').first()`: the maximal `sent_at` among matching
records (`none` when none match; ties are irrelevant since only the timestamp
is read afterwards). -/
def lastSentAt (log : List ReminderRecord) (k : ReminderKey) : Option Int :=
  (log.filter (recMatches k)).foldl
    (fun acc r =>
      match acc with
      | none => some r.sent_at
      | some t => some (max t r.sent_at)) none

inductive ReminderOutcome where
  | skipped : ReminderOutcome
  | sent : ReminderOutcome
  | failed : ReminderOutcome
deriving DecidableEq

/-- Lines 169-196: attempt dispatch (success is the external email service's
result); on success append a new `ReminderLog` row with `sent_at = now`, on
failure write nothing. -/
def attemptDispatch (log : List ReminderRecord) (k : ReminderKey) (now : Int)
    (dispatch_success : Bool) : ReminderOutcome × List ReminderRecord :=
  if dispatch_success then
    (.sent, log ++ [{ user := k.user, dog := k.dog, vaccine_id := k.vaccine_id,
                      dose_number := k.dose_number, scheduled_date := k.scheduled_date,
                      sent_at := now }])
  else (.failed, log)

/-- Lines 137-196 for one candidate item: look up the most recent matching
record; if it exists and `now - sent_at < timedelta(hours=interval_hours)`
(strict), skip; otherwise attempt dispatch. -/
def processCandidate (log : List ReminderRecord) (k : ReminderKey) (now : Int)
    (interval_hours : Int) (dispatch_success : Bool) :
    ReminderOutcome × List ReminderRecord :=
  match lastSentAt log k with
  | some t =>
    if now - t < interval_hours * 3600 then (.skipped, log)
    else attemptDispatch log k now dispatch_success
  | none => attemptDispatch log k now dispatch_success

/-! ## Claim C9 -/

/-- C9: in the reminder batch job, for every candidate item: if the most
recent matching `ReminderRecord` exists and is younger than the subject's
resend interval, the item is skipped with no dispatch and no new record;
otherwise dispatch is attempted, and a new record carrying the current
timestamp is appended exactly when dispatch succeeds — on failure the log is
unchanged, leaving the item a candidate for the next run. -/
theorem C9_reminder_dedup (log : List ReminderRecord) (k : ReminderKey)
    (now interval_hours : Int) (dispatch_success : Bool) :
    (∀ t, lastSentAt log k = some t → now - t < interval_hours * 3600 →
      processCandidate log k now interval_hours dispatch_success = (.skipped, log)) ∧
    ((∀ t, lastSentAt log k = some t → ¬ (now - t < interval_hours * 3600)) →
      (dispatch_success = true →
        processCandidate log k now interval_hours dispatch_success =
          (.sent, log ++ [{ user := k.user, dog := k.dog, vaccine_id := k.vaccine_id,
                            dose_number := k.dose_number,
                            scheduled_date := k.scheduled_date, sent_at := now }])) ∧
      (dispatch_success = false →
        processCandidate log k now interval_hours dispatch_success = (.failed, log))) := by
  constructor
  · intro t ht hlt
    unfold processCandidate
    rw [ht]
    dsimp only
    rw [if_pos hlt]
  · intro hna
    constructor
    · intro hd
      unfold processCandidate
      rcases hl : lastSentAt log k with _ | t
      · unfold attemptDispatch
        rw [if_pos hd]
      · dsimp only
        rw [if_neg (hna t hl)]
        unfold attemptDispatch
        rw [if_pos hd]
    · intro hd
      unfold processCandidate
      rcases hl : lastSentAt log k with _ | t
      · unfold attemptDispatch
        rw [hd]
        rfl
      · dsimp only
        rw [if_neg (hna t hl)]
        unfold attemptDispatch
        rw [hd]
        rfl

/-- C9 witness log row and key. -/
def c9Rec : ReminderRecord :=
  { user := 1, dog := 1, vaccine_id := "core_dap", dose_number := some 1,
    scheduled_date := 100, sent_at := 1000 }

/-- C9 witness key matching `c9Rec`. -/
def c9Key : ReminderKey :=
  { user := 1, dog := 1, vaccine_id := "core_dap", dose_number := some 1,
    scheduled_date := 100 }

/-- Witness for C9 at concrete inputs: with a 2-hour resend interval, a
reminder sent at t=1000 suppresses a run at t=5000 (4000 s < 7200 s) and a
run at t=10000 dispatches and appends the new record. -/
theorem C9_reminder_dedup_witness :
    processCandidate [c9Rec] c9Key 5000 2 true = (.skipped, [c9Rec]) ∧
    processCandidate [c9Rec] c9Key 10000 2 true =
      (.sent, [c9Rec] ++ [{ user := c9Key.user, dog := c9Key.dog,
                            vaccine_id := c9Key.vaccine_id,
                            dose_number := c9Key.dose_number,
                            scheduled_date := c9Key.scheduled_date,
                            sent_at := 10000 }]) :=
  ⟨(C9_reminder_dedup [c9Rec] c9Key 5000 2 true).1 1000 rfl (by decide),
   ((C9_reminder_dedup [c9Rec] c9Key 10000 2 true).2
      (fun t ht => by
        have h := Option.some.inj ht
        subst h
        decide)).1 rfl⟩

end VaccSched
